import Mathlib

/-!
# Verification of the six-line divination engine

A shallow embedding of the core computation modules of the repository
(`core/ganzhi.py`, `core/divination_engine.py`, `core/najia_engine.py`,
`core/analysis_engine.py`) together with theorems checking the
natural-language specification against the code.

Python dictionaries are modelled as functions into `Option`, with
`dict.get(k, d)` becoming `(f k).getD d`.  Python lists indexed in-range
are modelled with `List.getD`; theorems carry the in-range hypotheses
that hold in the program.  The engine's knowledge-base JSON files
(`najia.json`) are not part of the source tree, so their contents are
modelled as an abstract `NajiaConfig` parameter; theorems about
`paipan` quantify over all configurations.
-/

namespace Suanming

/-! ## Shared five-element tables

The dictionaries `WUXING_SHENG` (generation), `WUXING_KE` (overcoming),
`DIZHI_WUXING` (branch to element) and `MONTH_WUXING` (month branch to
seasonal element) appear with identical contents in `najia_engine.py`,
`analysis_engine.py` and `ganzhi.py`; each is defined once here. -/

/-- 五行相生 `{"木": "火", "火": "土", "土": "金", "金": "水", "水": "木"}`. -/
def wuxingSheng : String → Option String := fun x =>
  if x = "木" then some "火"
  else if x = "火" then some "土"
  else if x = "土" then some "金"
  else if x = "金" then some "水"
  else if x = "水" then some "木"
  else none

/-- 五行相克 `{"木": "土", "火": "金", "土": "水", "金": "木", "水": "火"}`. -/
def wuxingKe : String → Option String := fun x =>
  if x = "木" then some "土"
  else if x = "火" then some "金"
  else if x = "土" then some "水"
  else if x = "金" then some "木"
  else if x = "水" then some "火"
  else none

/-- 地支五行 table (12 branches to 5 elements). -/
def dizhiWuxing : String → Option String := fun x =>
  if x = "子" then some "水"
  else if x = "丑" then some "土"
  else if x = "寅" then some "木"
  else if x = "卯" then some "木"
  else if x = "辰" then some "土"
  else if x = "巳" then some "火"
  else if x = "午" then some "火"
  else if x = "未" then some "土"
  else if x = "申" then some "金"
  else if x = "酉" then some "金"
  else if x = "戌" then some "土"
  else if x = "亥" then some "水"
  else none

/-- `MONTH_WUXING`: month branch to the season's ruling element. -/
def monthWuxing : String → Option String := fun x =>
  if x = "寅" then some "木"
  else if x = "卯" then some "木"
  else if x = "辰" then some "土"
  else if x = "巳" then some "火"
  else if x = "午" then some "火"
  else if x = "未" then some "土"
  else if x = "申" then some "金"
  else if x = "酉" then some "金"
  else if x = "戌" then some "土"
  else if x = "亥" then some "水"
  else if x = "子" then some "水"
  else if x = "丑" then some "土"
  else none

/-- The five elements. -/
def fiveElements : List String := ["木", "火", "土", "金", "水"]

/-- The twelve branches. -/
def twelveBranches : List String :=
  ["子", "丑", "寅", "卯", "辰", "巳", "午", "未", "申", "酉", "戌", "亥"]

/-- The ten stems. -/
def tenStems : List String :=
  ["甲", "乙", "丙", "丁", "戊", "己", "庚", "辛", "壬", "癸"]

/-! ## `WangShuaiCalculator` (najia_engine.py) -/

/-- `WANGSHUAI_TABLE`: outer key month element, inner key line element,
value the strength label. -/
def wangshuaiTable : String → Option (String → Option String) := fun m =>
  if m = "木" then some (fun y =>
    if y = "木" then some "旺" else if y = "火" then some "相"
    else if y = "水" then some "休" else if y = "金" then some "囚"
    else if y = "土" then some "死" else none)
  else if m = "火" then some (fun y =>
    if y = "火" then some "旺" else if y = "土" then some "相"
    else if y = "木" then some "休" else if y = "水" then some "囚"
    else if y = "金" then some "死" else none)
  else if m = "土" then some (fun y =>
    if y = "土" then some "旺" else if y = "金" then some "相"
    else if y = "火" then some "休" else if y = "木" then some "囚"
    else if y = "水" then some "死" else none)
  else if m = "金" then some (fun y =>
    if y = "金" then some "旺" else if y = "水" then some "相"
    else if y = "土" then some "休" else if y = "火" then some "囚"
    else if y = "木" then some "死" else none)
  else if m = "水" then some (fun y =>
    if y = "水" then some "旺" else if y = "木" then some "相"
    else if y = "金" then some "休" else if y = "土" then some "囚"
    else if y = "火" then some "死" else none)
  else none

/-- The inner lookup `WANGSHUAI_TABLE.get(month_wuxing, {}).get(yao_wuxing, ...)`
before its default is applied, keyed by month element and line element. -/
def wangshuaiLookup (month_el line_el : String) : Option String :=
  ((wangshuaiTable month_el).getD (fun _ => none)) line_el

/-- `WangShuaiCalculator.calc_wangshuai`:
`cls.WANGSHUAI_TABLE.get(month_wuxing, {}).get(yao_wuxing, "休")` with
`month_wuxing = cls.MONTH_WUXING.get(month_zhi, "土")`. -/
def calc_wangshuai (yao_wuxing month_zhi : String) : String :=
  let month_wuxing := (monthWuxing month_zhi).getD "土"
  (wangshuaiLookup month_wuxing yao_wuxing).getD "休"

/-! ## `NajiaEngine.calc_liuqin` -/

/-- `NajiaEngine.calc_liuqin`: kinship role of a line element relative to
the house element. -/
def calc_liuqin (yao_wuxing gong_wuxing : String) : String :=
  if yao_wuxing = gong_wuxing then "兄弟"
  else if wuxingSheng gong_wuxing = some yao_wuxing then "子孙"
  else if wuxingSheng yao_wuxing = some gong_wuxing then "父母"
  else if wuxingKe gong_wuxing = some yao_wuxing then "妻财"
  else if wuxingKe yao_wuxing = some gong_wuxing then "官鬼"
  else "未知"

/-! ## `GanzhiCalculator` (ganzhi.py) -/

/-- `GanzhiCalculator.TIANGAN`. -/
def TIANGAN : List String :=
  ["甲", "乙", "丙", "丁", "戊", "己", "庚", "辛", "壬", "癸"]

/-- `GanzhiCalculator.DIZHI`. -/
def DIZHI : List String :=
  ["子", "丑", "寅", "卯", "辰", "巳", "午", "未", "申", "酉", "戌", "亥"]

/-- `GanzhiCalculator.calc_year_ganzhi`: `(year - 4) % 10` / `(year - 4) % 12`
(Python `%` on a positive modulus is non-negative, matching `Int.emod`). -/
def calc_year_ganzhi (year : Int) : String × String :=
  let gan_index := ((year - 4) % 10).toNat
  let zhi_index := ((year - 4) % 12).toNat
  (TIANGAN.getD gan_index "", DIZHI.getD zhi_index "")

/-- `GanzhiCalculator.JIEQI`: solar-term boundary table
(month, day, is-major-node, name). -/
def JIEQI : List (Nat × Nat × Bool × String) :=
  [(1, 6, true, "小寒"), (1, 20, false, "大寒"),
   (2, 4, true, "立春"), (2, 19, false, "雨水"),
   (3, 6, true, "惊蛰"), (3, 21, false, "春分"),
   (4, 5, true, "清明"), (4, 20, false, "谷雨"),
   (5, 6, true, "立夏"), (5, 21, false, "小满"),
   (6, 6, true, "芒种"), (6, 21, false, "夏至"),
   (7, 7, true, "小暑"), (7, 23, false, "大暑"),
   (8, 7, true, "立秋"), (8, 23, false, "处暑"),
   (9, 8, true, "白露"), (9, 23, false, "秋分"),
   (10, 8, true, "寒露"), (10, 23, false, "霜降"),
   (11, 7, true, "立冬"), (11, 22, false, "小雪"),
   (12, 7, true, "大雪"), (12, 22, false, "冬至")]

/-- Python `x or 12` on a month number: `12` when `x` is `0`. -/
def orTwelve (n : Nat) : Nat := if n = 0 then 12 else n

/-- The `enumerate` loop body of `GanzhiCalculator._get_lunar_month`,
carrying the enumeration index. -/
def lunarMonthAux : Nat → List (Nat × Nat × Bool × String) → Nat → Nat → Option Nat
  | _, [], _, _ => none
  | i, (jm, jd, is_jie, _) :: rest, month, day =>
    if is_jie then
      if month = jm then
        if day < jd then some (orTwelve ((i / 2) % 12))
        else some (orTwelve ((i / 2 + 1) % 12))
      else if month < jm then some (orTwelve ((i / 2) % 12))
      else lunarMonthAux (i + 1) rest month day
    else lunarMonthAux (i + 1) rest month day

/-- `GanzhiCalculator._get_lunar_month`: the loop over `JIEQI`, defaulting
to the civil month when the loop falls through. -/
def get_lunar_month (month day : Nat) : Nat :=
  (lunarMonthAux 0 JIEQI month day).getD month

/-- The five-tigers base table `base_gan = [2, 4, 6, 8, 0]`. -/
def base_gan_month : List Nat := [2, 4, 6, 8, 0]

/-- The month-stem index expression of `calc_month_ganzhi`:
`(base_gan[year_gan_index % 5] + lunar_month - 1) % 10`. -/
def month_gan_index (year_gan_index lunar_month : Nat) : Nat :=
  (base_gan_month.getD (year_gan_index % 5) 0 + lunar_month - 1) % 10

/-- `GanzhiCalculator.calc_month_ganzhi`. -/
def calc_month_ganzhi (year : Int) (month day : Nat) : String × String :=
  let lunar_month := get_lunar_month month day
  let zhi_index := (lunar_month + 1) % 12
  let year_gan := (calc_year_ganzhi year).1
  let year_gan_index := TIANGAN.indexOf year_gan
  (TIANGAN.getD (month_gan_index year_gan_index lunar_month) "",
   DIZHI.getD zhi_index "")

/-- Gregorian leap-year test (semantics of Python `datetime.date`). -/
def isLeap (y : Nat) : Bool := (y % 4 == 0 && y % 100 != 0) || y % 400 == 0

/-- Month lengths of a (leap) year. -/
def monthLengths (leap : Bool) : List Nat :=
  [31, if leap then 29 else 28, 31, 30, 31, 30, 31, 31, 30, 31, 30, 31]

/-- Days in year `y` strictly before month `m`. -/
def daysBeforeMonth (y m : Nat) : Nat := ((monthLengths (isLeap y)).take (m - 1)).sum

/-- Proleptic-Gregorian day number (Python `date.toordinal`):
day 1 is January 1 of year 1. -/
def toOrdinal (y m d : Nat) : Nat :=
  let p := y - 1
  365 * p + p / 4 - p / 100 + p / 400 + daysBeforeMonth y m + d

/-- `days_diff = (target_date - base_date).days` with
`base_date = date(2000, 1, 1)`. -/
def dayOffset (y m d : Nat) : Int := (toOrdinal y m d : Int) - (toOrdinal 2000 1 1 : Int)

/-- `base_gan = 0` (甲), the reference day stem of 2000-01-01. -/
def refStem : Int := 0

/-- `base_zhi = 4` (辰), the reference day branch of 2000-01-01. -/
def refBranch : Int := 4

/-- `GanzhiCalculator.calc_day_ganzhi`. -/
def calc_day_ganzhi (y m d : Nat) : String × String :=
  let days_diff := dayOffset y m d
  let gan_index := ((refStem + days_diff) % 10).toNat
  let zhi_index := ((refBranch + days_diff) % 12).toNat
  (TIANGAN.getD gan_index "", DIZHI.getD zhi_index "")

/-! ## `DivinationEngine` (divination_engine.py) -/

/-- `YaoResult` dataclass. -/
structure YaoResult where
  position : Nat
  value : Nat
  yao_type : String
  is_yang : Bool
  is_changing : Bool
  symbol : String
deriving Repr, DecidableEq

/-- `DivinationEngine._random_to_yao`: maps a uniform draw in `0..7`
to a line value. -/
def random_to_yao (rand : Nat) : Nat :=
  if rand = 0 then 6 else if rand ≤ 3 then 7 else if rand ≤ 6 then 8 else 9

/-- `YAO_MAPPING[v]["name"]` (the dictionary's domain is `{6, 7, 8, 9}`). -/
def yaoMappingName (v : Nat) : String :=
  if v = 6 then "老阴" else if v = 7 then "少阳" else if v = 8 then "少阴" else "老阳"

/-- `YAO_MAPPING[v]["is_yang"]`. -/
def yaoMappingIsYang (v : Nat) : Bool := v == 7 || v == 9

/-- `YAO_MAPPING[v]["is_changing"]`. -/
def yaoMappingIsChanging (v : Nat) : Bool := v == 6 || v == 9

/-- `YAO_MAPPING[v]["symbol"]`. -/
def yaoMappingSymbol (v : Nat) : String :=
  if v = 6 then "━ ━ ✕" else if v = 7 then "━━━" else if v = 8 then "━ ━" else "━━━ ○"

/-- `DivinationEngine.cast_single_yao`, with the random draw made an
explicit argument (the spec requires the randomness source to be
injectable). -/
def cast_single_yao (position rand : Nat) : YaoResult :=
  let value := random_to_yao rand
  { position := position
    value := value
    yao_type := yaoMappingName value
    is_yang := yaoMappingIsYang value
    is_changing := yaoMappingIsChanging value
    symbol := yaoMappingSymbol value }

/-- `HexagramResult` dataclass (timestamp omitted: it is wall-clock
metadata unused by any computation). -/
structure HexagramResult where
  yao_list : List YaoResult
  ben_gua_binary : String
  bian_gua_binary : String
  changing_lines : List Nat
deriving Repr, DecidableEq

/-- `DivinationEngine.cast_hexagram`, parameterized by the six random
draws. -/
def cast_hexagram (rands : List Nat) : HexagramResult :=
  let yao_list := (List.range 6).map (fun i => cast_single_yao (i + 1) (rands.getD i 0))
  let ben_gua_binary := String.mk (yao_list.map (fun y => if y.is_yang then '1' else '0'))
  let bian_gua_binary := String.mk (yao_list.map (fun y =>
    if y.is_changing then (if y.is_yang then '0' else '1')
    else (if y.is_yang then '1' else '0')))
  let changing_lines := (yao_list.filter (fun y => y.is_changing)).map (fun y => y.position)
  { yao_list := yao_list
    ben_gua_binary := ben_gua_binary
    bian_gua_binary := bian_gua_binary
    changing_lines := changing_lines }

/-- Bit `i` of a 6-bit pattern string, as a Boolean. -/
def bitAt (s : String) (i : Nat) : Bool := s.data.getD i '0' == '1'

/-! ## `NajiaEngine` (najia_engine.py)

The engine is initialised from `knowledge/najia.json`, which is not part
of the source tree; its parsed contents (trigram stem/branch table,
branch-element table, house-element table, six-spirit sequences) are
modelled as an abstract `NajiaConfig`.  Spirit sequences and the
six-branch list of a trigram are total maps from the index, mirroring
in-range Python list indexing. -/

/-- The parsed contents of `knowledge/najia.json`. -/
structure NajiaConfig where
  /-- `八卦纳甲[trigram]["天干"]`. -/
  baguaTiangan : String → String
  /-- `八卦纳甲[trigram]["地支"][i]`, `i < 6`. -/
  baguaDizhi : String → Nat → String
  /-- `地支五行` (loaded copy used by `paipan`). -/
  cfgDizhiWuxing : String → String
  /-- `卦宫对照`, a partial map: `paipan` reads it with `.get(gong, "金")`. -/
  cfgGongWuxing : String → Option String
  /-- `六神配置["甲乙日"]` as a position-indexed sequence. -/
  liushenJiaYi : Nat → String
  /-- `六神配置["丙丁日"]`. -/
  liushenBingDing : Nat → String
  /-- `六神配置["戊日"]`. -/
  liushenWuDay : Nat → String
  /-- `六神配置["己日"]`. -/
  liushenJiDay : Nat → String
  /-- `六神配置["庚辛日"]`. -/
  liushenGengXin : Nat → String
  /-- `六神配置["壬癸日"]`. -/
  liushenRenGui : Nat → String

/-- `NajiaEngine.get_trigram_najia`: three (stem, branch) pairs for a
trigram, taking branches 3–5 for the upper placement and 0–2 for the
lower. -/
def get_trigram_najia (cfg : NajiaConfig) (trigram : String) (is_upper : Bool) :
    List (String × String) :=
  let tiangan := cfg.baguaTiangan trigram
  if is_upper then
    [(tiangan, cfg.baguaDizhi trigram 3), (tiangan, cfg.baguaDizhi trigram 4),
     (tiangan, cfg.baguaDizhi trigram 5)]
  else
    [(tiangan, cfg.baguaDizhi trigram 0), (tiangan, cfg.baguaDizhi trigram 1),
     (tiangan, cfg.baguaDizhi trigram 2)]

/-- `NajiaEngine.get_liushen`: selects the six-spirit sequence from the
day stem, defaulting to the 甲乙 sequence for any unknown stem. -/
def get_liushen (cfg : NajiaConfig) (ri_gan : String) : Nat → String :=
  if ri_gan = "甲" ∨ ri_gan = "乙" then cfg.liushenJiaYi
  else if ri_gan = "丙" ∨ ri_gan = "丁" then cfg.liushenBingDing
  else if ri_gan = "戊" then cfg.liushenWuDay
  else if ri_gan = "己" then cfg.liushenJiDay
  else if ri_gan = "庚" ∨ ri_gan = "辛" then cfg.liushenGengXin
  else if ri_gan = "壬" ∨ ri_gan = "癸" then cfg.liushenRenGui
  else cfg.liushenJiaYi

/-- `YaoNajia` dataclass. -/
structure YaoNajia where
  position : Nat
  yao_value : Nat
  is_yang : Bool
  is_changing : Bool
  tiangan : String
  dizhi : String
  wuxing : String
  liuqin : String
  liushen : String
  shi_yao : Bool
  ying_yao : Bool
  wang_shuai : String := ""
deriving Repr, DecidableEq

/-- `PaipanResult` dataclass. -/
structure PaipanResult where
  ben_gua_name : String
  bian_gua_name : Option String
  gong : String
  gong_wuxing : String
  shi_yao : Nat
  ying_yao : Nat
  ben_gua_yaos : List YaoNajia
  bian_gua_yaos : Option (List YaoNajia)
  month_jian : String := ""
  day_chen : String := ""
deriving Repr, DecidableEq

/-- The `changing_positions` accumulation of `paipan`
(`for i, val in enumerate(yao_values): if val in [6, 9]: append(i + 1)`),
with the running enumeration index explicit. -/
def changingPositionsAux : Nat → List Nat → List Nat
  | _, [] => []
  | i, v :: vs =>
    if v = 6 ∨ v = 9 then (i + 1) :: changingPositionsAux (i + 1) vs
    else changingPositionsAux (i + 1) vs

/-- The mutating-position list identified by `paipan`. -/
def changingPositions (yao_values : List Nat) : List Nat :=
  changingPositionsAux 0 yao_values

/-- The body of `paipan`'s first `for i in range(6)` loop: one original
(本卦) line. -/
def mkBenYao (cfg : NajiaConfig) (yao_values : List Nat)
    (lower_najia upper_najia : List (String × String)) (gong_wuxing : String)
    (liushen_list : Nat → String) (month_zhi : String) (shi ying : Nat)
    (i : Nat) : YaoNajia :=
  let pos := i + 1
  let yao_val := yao_values.getD i 0
  let is_yang := yao_val = 7 ∨ yao_val = 9
  let is_changing := pos ∈ changingPositions yao_values
  let tg_dz := if i < 3 then lower_najia.getD i ("", "") else upper_najia.getD (i - 3) ("", "")
  let wuxing := cfg.cfgDizhiWuxing tg_dz.2
  let liuqin := calc_liuqin wuxing gong_wuxing
  let wang_shuai := if month_zhi ≠ "" then calc_wangshuai wuxing month_zhi else ""
  { position := pos
    yao_value := yao_val
    is_yang := is_yang
    is_changing := is_changing
    tiangan := tg_dz.1
    dizhi := tg_dz.2
    wuxing := wuxing
    liuqin := liuqin
    liushen := liushen_list i
    shi_yao := pos = shi
    ying_yao := pos = ying
    wang_shuai := wang_shuai }

/-- The body of `paipan`'s second `for i in range(6)` loop: one
resulting-hexagram (变卦) line. -/
def mkBianYao (cfg : NajiaConfig) (yao_values : List Nat)
    (bian_lower_najia bian_upper_najia : List (String × String)) (gong_wuxing : String)
    (liushen_list : Nat → String) (month_zhi : String) (shi ying : Nat)
    (i : Nat) : YaoNajia :=
  let pos := i + 1
  let original_val := yao_values.getD i 0
  let is_yang :=
    if pos ∈ changingPositions yao_values then
      if original_val = 9 then false else original_val = 6
    else (original_val = 7 ∨ original_val = 9)
  let tg_dz := if i < 3 then bian_lower_najia.getD i ("", "")
    else bian_upper_najia.getD (i - 3) ("", "")
  let wuxing := cfg.cfgDizhiWuxing tg_dz.2
  let liuqin := calc_liuqin wuxing gong_wuxing
  let bian_wang_shuai := if month_zhi ≠ "" then calc_wangshuai wuxing month_zhi else ""
  { position := pos
    yao_value := if is_yang then 7 else 8
    is_yang := is_yang
    is_changing := false
    tiangan := tg_dz.1
    dizhi := tg_dz.2
    wuxing := wuxing
    liuqin := liuqin
    liushen := liushen_list i
    shi_yao := pos = shi
    ying_yao := pos = ying
    wang_shuai := bian_wang_shuai }

/-- Truthiness of the optional 变卦 parameters:
`if bian_gua_name and bian_upper and bian_lower:`. -/
def bianParamsPresent (bian_gua_name bian_upper bian_lower : Option String) : Bool :=
  match bian_gua_name, bian_upper, bian_lower with
  | some n, some u, some l => n ≠ "" && u ≠ "" && l ≠ ""
  | _, _, _ => false

/-- `NajiaEngine.paipan`. -/
def paipan (cfg : NajiaConfig) (yao_values : List Nat)
    (upper_trigram lower_trigram gong : String) (shi_yao ying_yao : Nat)
    (ben_gua_name : String)
    (bian_gua_name bian_upper bian_lower : Option String)
    (ri_gan month_zhi day_zhi : String) : PaipanResult :=
  let gong_wuxing := (cfg.cfgGongWuxing gong).getD "金"
  let liushen_list := get_liushen cfg ri_gan
  let lower_najia := get_trigram_najia cfg lower_trigram false
  let upper_najia := get_trigram_najia cfg upper_trigram true
  let ben_gua_yaos := (List.range 6).map
    (mkBenYao cfg yao_values lower_najia upper_najia gong_wuxing liushen_list
      month_zhi shi_yao ying_yao)
  let bian_gua_yaos :=
    if bianParamsPresent bian_gua_name bian_upper bian_lower then
      let bian_lower_najia := get_trigram_najia cfg (bian_lower.getD "") false
      let bian_upper_najia := get_trigram_najia cfg (bian_upper.getD "") true
      some ((List.range 6).map
        (mkBianYao cfg yao_values bian_lower_najia bian_upper_najia gong_wuxing
          liushen_list month_zhi shi_yao ying_yao))
    else none
  { ben_gua_name := ben_gua_name
    bian_gua_name := bian_gua_name
    gong := gong
    gong_wuxing := gong_wuxing
    shi_yao := shi_yao
    ying_yao := ying_yao
    ben_gua_yaos := ben_gua_yaos
    bian_gua_yaos := bian_gua_yaos
    month_jian := month_zhi
    day_chen := day_zhi }

/-! ## `AnalysisEngine` (analysis_engine.py) -/

/-- `WANG_SHUAI_SCORE`: base score per strength label. -/
def wangShuaiScore : String → Option Int := fun w =>
  if w = "旺" then some 100
  else if w = "相" then some 80
  else if w = "休" then some 50
  else if w = "囚" then some 30
  else if w = "死" then some 10
  else none

/-- One entry of `YONG_SHEN_MAP`. -/
structure YongShenConfig where
  yongShen : String
  yuanShen : String
  jiShen : String
  chouShen : String
deriving Repr, DecidableEq

/-- `YONG_SHEN_MAP`: question category to the four analytic roles. -/
def yongShenMap : String → Option YongShenConfig := fun t =>
  if t = "事业" then some ⟨"官鬼", "妻财", "子孙", "兄弟"⟩
  else if t = "财运" then some ⟨"妻财", "子孙", "兄弟", "父母"⟩
  else if t = "感情" then some ⟨"妻财", "子孙", "兄弟", "父母"⟩
  else if t = "健康" then some ⟨"子孙", "兄弟", "官鬼", "妻财"⟩
  else if t = "学业" then some ⟨"父母", "官鬼", "妻财", "子孙"⟩
  else if t = "出行" then some ⟨"世爻", "父母", "官鬼", "兄弟"⟩
  else if t = "其他" then some ⟨"世爻", "", "官鬼", ""⟩
  else none

/-- The catch-all entry `YONG_SHEN_MAP["其他"]`. -/
def yongShenDefault : YongShenConfig := ⟨"世爻", "", "官鬼", ""⟩

/-- `YaoAnalysis` dataclass. -/
structure YaoAnalysis where
  position : Nat
  liuqin : String
  liushen : String
  tiangan : String
  dizhi : String
  wuxing : String
  wang_shuai : String
  is_dong : Bool
  is_shi : Bool
  is_ying : Bool
  is_yong_shen : Bool := false
  is_yuan_shen : Bool := false
  is_ji_shen : Bool := false
  is_chou_shen : Bool := false
  bian_dizhi : String := ""
  bian_wuxing : String := ""
  hui_tou_sheng : Bool := false
  hui_tou_ke : Bool := false
  ri_sheng : Bool := false
  ri_ke : Bool := false
  yue_sheng : Bool := false
  yue_ke : Bool := false
  score : Int := 0
deriving Repr, DecidableEq

/-- `AnalysisEngine._calc_yao_score`. -/
def calc_yao_score (yao : YaoAnalysis) : Int :=
  let score := (wangShuaiScore yao.wang_shuai).getD 50
  let score := if yao.yue_sheng then score + 20 else score
  let score := if yao.ri_sheng then score + 15 else score
  let score := if yao.yue_ke then score - 25 else score
  let score := if yao.ri_ke then score - 15 else score
  let score :=
    if yao.is_dong then
      if yao.hui_tou_sheng then score + 30
      else if yao.hui_tou_ke then score - 40
      else score
    else score
  max 0 (min 150 score)

/-- `AnalysisEngine._calc_ri_yue_shengke`: sets the month/day
generation and overcoming flags. -/
def calcRiYueShengke (yao : YaoAnalysis) (month_zhi day_zhi : String) : YaoAnalysis :=
  let yao_wuxing := yao.wuxing
  let month_wuxing := (monthWuxing month_zhi).getD "土"
  let day_wuxing := (dizhiWuxing day_zhi).getD "土"
  let yao :=
    if wuxingSheng month_wuxing = some yao_wuxing then { yao with yue_sheng := true }
    else if wuxingKe month_wuxing = some yao_wuxing then { yao with yue_ke := true }
    else yao
  if wuxingSheng day_wuxing = some yao_wuxing then { yao with ri_sheng := true }
  else if wuxingKe day_wuxing = some yao_wuxing then { yao with ri_ke := true }
  else yao

/-- Placeholder line for out-of-range list access (`bian_gua_yaos[pos-1]`
raises `IndexError` in Python; theorems carry the in-range hypotheses
that hold for `paipan` output). -/
def dummyYaoNajia : YaoNajia :=
  { position := 0, yao_value := 0, is_yang := false, is_changing := false,
    tiangan := "", dizhi := "", wuxing := "", liuqin := "", liushen := "",
    shi_yao := false, ying_yao := false }

/-- The per-line body of `AnalysisEngine.analyze`'s first loop: basic
fields, role flags, month/day interaction flags, mutation fields and
the final score. -/
def buildYaoAnalysis (cfgY : YongShenConfig) (month_zhi day_zhi : String)
    (bian_gua_yaos : Option (List YaoNajia)) (yao : YaoNajia) : YaoAnalysis :=
  let a : YaoAnalysis :=
    { position := yao.position, liuqin := yao.liuqin, liushen := yao.liushen,
      tiangan := yao.tiangan, dizhi := yao.dizhi, wuxing := yao.wuxing,
      wang_shuai := yao.wang_shuai, is_dong := yao.is_changing,
      is_shi := yao.shi_yao, is_ying := yao.ying_yao }
  let a := { a with
    is_yong_shen := if cfgY.yongShen = "世爻" then yao.shi_yao
      else yao.liuqin = cfgY.yongShen,
    is_yuan_shen := yao.liuqin = cfgY.yuanShen,
    is_ji_shen := yao.liuqin = cfgY.jiShen,
    is_chou_shen := yao.liuqin = cfgY.chouShen }
  let a := calcRiYueShengke a month_zhi day_zhi
  let a :=
    match bian_gua_yaos with
    | some l =>
      if yao.is_changing ∧ l ≠ [] then
        let bian_yao := l.getD (yao.position - 1) dummyYaoNajia
        let a := { a with bian_dizhi := bian_yao.dizhi, bian_wuxing := bian_yao.wuxing }
        if wuxingSheng bian_yao.wuxing = some yao.wuxing then
          { a with hui_tou_sheng := true }
        else if wuxingKe bian_yao.wuxing = some yao.wuxing then
          { a with hui_tou_ke := true }
        else a
      else a
    | none => a
  { a with score := calc_yao_score a }

/-- Python `max(yong_shen_yaos, key=lambda x: x.score)`: the first
element attaining the maximal score. -/
def maxByScoreFirst (x : YaoAnalysis) (xs : List YaoAnalysis) : YaoAnalysis :=
  xs.foldl (fun acc y => if y.score > acc.score then y else acc) x

/-- The `status_parts` list of `AnalysisEngine._analyze_yong_shen`. -/
def yongShenStatusParts (yong : YaoAnalysis) : List String :=
  (if yong.wang_shuai = "旺" ∨ yong.wang_shuai = "相" then ["旺相有力"]
   else if yong.wang_shuai = "休" ∨ yong.wang_shuai = "囚" ∨ yong.wang_shuai = "死" then
     ["休囚无力"]
   else [])
  ++ (if yong.ri_sheng then ["得日生扶"] else [])
  ++ (if yong.ri_ke then ["受日克制"] else [])
  ++ (if yong.yue_sheng then ["得月生扶"] else [])
  ++ (if yong.yue_ke then ["受月克制"] else [])
  ++ (if yong.is_dong then
        if yong.hui_tou_sheng then ["动化回头生，力量增强"]
        else if yong.hui_tou_ke then ["动化回头克，自取灭亡"]
        else []
      else [])

/-- `AnalysisEngine._analyze_yong_shen`: target position, score and
status sentence (report defaults `(0, 0, "")` when no line carries the
target role). -/
def analyzeYongShen (yaos : List YaoAnalysis) : Nat × Int × String :=
  match yaos.filter (fun y => y.is_yong_shen) with
  | [] => (0, 0, "")
  | x :: xs =>
    let yong := maxByScoreFirst x xs
    let parts := yongShenStatusParts yong
    (yong.position, yong.score,
      if parts ≠ [] then String.intercalate "，" parts else "状态中平")

/-- `AnalysisEngine._analyze_shi_ying`: subject/counterpart positions
and relation label (the loop keeps the last flagged line). -/
def analyzeShiYing (yaos : List YaoAnalysis) : Nat × Nat × String :=
  let acc := yaos.foldl
    (fun (acc : Option YaoAnalysis × Option YaoAnalysis) y =>
      (if y.is_shi then some y else acc.1, if y.is_ying then some y else acc.2))
    (none, none)
  let shi_pos := match acc.1 with | some y => y.position | none => 0
  let ying_pos := match acc.2 with | some y => y.position | none => 0
  let rel :=
    match acc.1, acc.2 with
    | some s, some c =>
      if wuxingSheng s.wuxing = some c.wuxing then "世生应，我方主动付出"
      else if wuxingSheng c.wuxing = some s.wuxing then "应生世，对方有利于我"
      else if wuxingKe s.wuxing = some c.wuxing then "世克应，我方占优势"
      else if wuxingKe c.wuxing = some s.wuxing then "应克世，对方压制我方"
      else if s.wuxing = c.wuxing then "世应比和，双方势均力敌"
      else "世应无直接生克"
    | _, _ => ""
  (shi_pos, ying_pos, rel)

/-- The position names `["初爻", "二爻", "三爻", "四爻", "五爻", "上爻"]`. -/
def yaoPositionNames : List String := ["初爻", "二爻", "三爻", "四爻", "五爻", "上爻"]

/-- One judgment string of `AnalysisEngine._analyze_dong_yao`
(`yong_shen` is the first target-flagged line, or `none`). -/
def dongYaoJudgment (yong_shen : Option YaoAnalysis) (dong : YaoAnalysis) : String :=
  let a := yaoPositionNames.getD (dong.position - 1) "" ++ "动（" ++ dong.liuqin
    ++ dong.liushen ++ "）"
  let a := a ++
    (match yong_shen with
     | some ys =>
       if dong.position ≠ ys.position then
         if wuxingSheng dong.wuxing = some ys.wuxing then "，生扶用神，为吉"
         else if wuxingKe dong.wuxing = some ys.wuxing then "，克制用神，为忌"
         else ""
       else ""
     | none => "")
  a ++
    (if dong.bian_wuxing ≠ "" then
      "，化" ++ dong.bian_wuxing ++
        (if dong.hui_tou_sheng then "（回头生，力量持续）"
         else if dong.hui_tou_ke then "（回头克，动而无功）"
         else "")
    else "")

/-- `AnalysisEngine._analyze_dong_yao`. -/
def analyzeDongYao (yaos : List YaoAnalysis) : List String :=
  let dongs := yaos.filter (fun y => y.is_dong)
  if dongs = [] then ["六爻皆静，以静制动，按本卦断"]
  else
    let yong_shen := yaos.find? (fun y => y.is_yong_shen)
    dongs.map (dongYaoJudgment yong_shen)

/-- `AnalysisEngine._make_conclusion`: the verdict grade and prose
conclusion derived from the target-spirit score and the mutating
support/adverse lines. -/
def makeConclusion (score : Int) (yaos : List YaoAnalysis) : String × String :=
  let jc : String × String :=
    if score ≥ 100 then ("大吉", "用神旺相有力，所求之事顺利可成")
    else if score ≥ 80 then ("吉", "用神得力，事情发展顺利，但需把握时机")
    else if score ≥ 60 then ("中平", "用神力量中等，事情可成但需付出努力")
    else if score ≥ 40 then ("小凶", "用神休囚，事情有阻碍，需谨慎行事")
    else ("凶", "用神衰弱无力，此事难成，宜暂缓或另谋他路")
  let dongs := yaos.filter (fun y => y.is_dong)
  let ji_dong := dongs.filter (fun y => y.is_yuan_shen)
  let xiong_dong := dongs.filter (fun y => y.is_ji_shen)
  let conclusion :=
    if ji_dong ≠ [] ∧ xiong_dong = [] then jc.2 ++ "，且有原神发动生扶，更添助力"
    else if xiong_dong ≠ [] ∧ ji_dong = [] then jc.2 ++ "，但有忌神发动克制，需防小人阻碍"
    else jc.2
  (jc.1, conclusion)

/-- `AnalysisReport` dataclass (fields the engine fills). -/
structure AnalysisReport where
  question : String
  question_type : String
  month_zhi : String
  day_zhi : String
  ri_gan : String
  ben_gua : String
  bian_gua : Option String
  gong : String
  gong_wuxing : String
  yaos : List YaoAnalysis
  yong_shen_pos : Nat := 0
  yong_shen_status : String := ""
  yong_shen_score : Int := 0
  shi_pos : Nat := 0
  ying_pos : Nat := 0
  shi_ying_relation : String := ""
  dong_yao_analysis : List String := []
  ji_xiong : String := ""
  conclusion : String := ""
deriving Repr, DecidableEq

/-- `AnalysisEngine.analyze`: the five-stage pipeline. -/
def analyze (question question_type : String) (pp : PaipanResult)
    (month_zhi day_zhi ri_gan : String) : AnalysisReport :=
  let cfgY := (yongShenMap question_type).getD yongShenDefault
  let yaos := pp.ben_gua_yaos.map (buildYaoAnalysis cfgY month_zhi day_zhi pp.bian_gua_yaos)
  let ys := analyzeYongShen yaos
  let sy := analyzeShiYing yaos
  let dong := analyzeDongYao yaos
  let jc := makeConclusion ys.2.1 yaos
  { question := question
    question_type := question_type
    month_zhi := month_zhi
    day_zhi := day_zhi
    ri_gan := ri_gan
    ben_gua := pp.ben_gua_name
    bian_gua := pp.bian_gua_name
    gong := pp.gong
    gong_wuxing := pp.gong_wuxing
    yaos := yaos
    yong_shen_pos := ys.1
    yong_shen_status := ys.2.2
    yong_shen_score := ys.2.1
    shi_pos := sy.1
    ying_pos := sy.2.1
    shi_ying_relation := sy.2.2
    dong_yao_analysis := dong
    ji_xiong := jc.1
    conclusion := jc.2 }

/-! ## Auxiliary concrete data for witnesses -/

/-- Placeholder for out-of-range `YaoResult` list access. -/
def dummyYaoResult : YaoResult :=
  { position := 0, value := 0, yao_type := "", is_yang := false,
    is_changing := false, symbol := "" }

/-- A concrete knowledge-base instantiation (the 乾/坎/离 rows of the
standard najia table and the standard six-spirit sequences), used to
evaluate the abstract-configuration theorems at a specific point. -/
def sampleNajiaConfig : NajiaConfig :=
  { baguaTiangan := fun t =>
      if t = "乾" then "甲" else if t = "坎" then "戊" else if t = "离" then "己" else "甲"
    baguaDizhi := fun t i =>
      if t = "乾" then ["子", "寅", "辰", "午", "申", "戌"].getD i ""
      else if t = "坎" then ["寅", "辰", "午", "申", "戌", "子"].getD i ""
      else if t = "离" then ["卯", "丑", "亥", "酉", "未", "巳"].getD i ""
      else ["子", "寅", "辰", "午", "申", "戌"].getD i ""
    cfgDizhiWuxing := fun z => (dizhiWuxing z).getD "土"
    cfgGongWuxing := fun g =>
      if g = "乾宫" then some "金" else if g = "坎宫" then some "水" else none
    liushenJiaYi := fun i => ["青龙", "朱雀", "勾陈", "螣蛇", "白虎", "玄武"].getD i ""
    liushenBingDing := fun i => ["朱雀", "勾陈", "螣蛇", "白虎", "玄武", "青龙"].getD i ""
    liushenWuDay := fun i => ["勾陈", "螣蛇", "白虎", "玄武", "青龙", "朱雀"].getD i ""
    liushenJiDay := fun i => ["螣蛇", "白虎", "玄武", "青龙", "朱雀", "勾陈"].getD i ""
    liushenGengXin := fun i => ["白虎", "玄武", "青龙", "朱雀", "勾陈", "螣蛇"].getD i ""
    liushenRenGui := fun i => ["玄武", "青龙", "朱雀", "勾陈", "螣蛇", "白虎"].getD i "" }

/-! ## Claim-side (specification) definitions

These follow the wording of the specification, to be compared with the
code-side definitions above. -/

/-- The claim's base-score table for strength labels
(旺=100, 相=80, 休=50, 囚=30, 死=10). -/
def specBaseScore (w : String) : Int :=
  if w = "旺" then 100
  else if w = "相" then 80
  else if w = "休" then 50
  else if w = "囚" then 30
  else 10

/-- Stage-3 target selection as the specification words it: among the
flagged target-role lines, the highest-scoring one, ties broken by the
first position encountered. -/
def specSelectTarget (yaos : List YaoAnalysis) : Option YaoAnalysis :=
  let flagged := yaos.filter (fun y => y.is_yong_shen)
  flagged.find? (fun y => flagged.all (fun z => z.score ≤ y.score))

/-- Stage-4 mutating-line analysis as the specification words it: one
judgment per mutating line in position order, naming position,
kinship-role and spirit, stating generation/overcoming towards the
Stage-3 target (when the line is not itself that target), and appending
the resulting element with a returning-generation/overcome annotation;
a single fixed sentence when no line mutates. -/
def specStage4 (yaos : List YaoAnalysis) : List String :=
  let dongs := yaos.filter (fun y => y.is_dong)
  if dongs = [] then ["六爻皆静，以静制动，按本卦断"]
  else
    dongs.map (fun d =>
      yaoPositionNames.getD (d.position - 1) "" ++ "动（" ++ d.liuqin ++ d.liushen ++ "）"
      ++ (match specSelectTarget yaos with
          | some t =>
            if d.position ≠ t.position then
              if wuxingSheng d.wuxing = some t.wuxing then "，生扶用神，为吉"
              else if wuxingKe d.wuxing = some t.wuxing then "，克制用神，为忌"
              else ""
            else ""
          | none => "")
      ++ ("，化" ++ d.bian_wuxing ++
          (if wuxingSheng d.bian_wuxing = some d.wuxing then "（回头生，力量持续）"
           else if wuxingKe d.bian_wuxing = some d.wuxing then "（回头克，动而无功）"
           else "")))

/-- Placeholder for out-of-range `YaoAnalysis` list access. -/
def dummyYaoAnalysis : YaoAnalysis :=
  { position := 0, liuqin := "", liushen := "", tiangan := "", dizhi := "",
    wuxing := "", wang_shuai := "", is_dong := false, is_shi := false,
    is_ying := false }

/-- A concrete original line used to evaluate theorems with hypotheses:
second line of 天水讼 (戊辰土), mutating, under a 寅 month. -/
def witnessYao : YaoNajia :=
  { position := 1, yao_value := 9, is_yang := true, is_changing := true,
    tiangan := "戊", dizhi := "寅", wuxing := "木", liuqin := "妻财",
    liushen := "青龙", shi_yao := false, ying_yao := true, wang_shuai := "旺" }

/-- A concrete resulting line paired with `witnessYao` (element 水, which
generates the original 木: returning generation). -/
def witnessBianYao : YaoNajia :=
  { position := 1, yao_value := 8, is_yang := false, is_changing := false,
    tiangan := "戊", dizhi := "子", wuxing := "水", liuqin := "子孙",
    liushen := "青龙", shi_yao := false, ying_yao := true, wang_shuai := "休" }

/-- A concrete all-static 乾宫 paipan result in which no line carries the
kinship-role 子孙 (the target role for the health category). -/
def witnessPaipanHealth : PaipanResult :=
  { ben_gua_name := "测试卦", bian_gua_name := none, gong := "乾宫",
    gong_wuxing := "金", shi_yao := 1, ying_yao := 4,
    ben_gua_yaos :=
      [⟨1, 7, true, false, "甲", "寅", "木", "妻财", "青龙", true, false, "旺"⟩,
       ⟨2, 8, false, false, "甲", "午", "火", "官鬼", "朱雀", false, false, "休"⟩,
       ⟨3, 7, true, false, "甲", "戌", "土", "父母", "勾陈", false, false, "死"⟩,
       ⟨4, 7, true, false, "甲", "申", "金", "兄弟", "螣蛇", false, true, "囚"⟩,
       ⟨5, 7, true, false, "甲", "戌", "土", "父母", "白虎", false, false, "死"⟩,
       ⟨6, 8, false, false, "甲", "寅", "木", "妻财", "玄武", false, false, "旺"⟩],
    bian_gua_yaos := none, month_jian := "寅", day_chen := "午" }

/-- The resulting-hexagram lines of the concrete mutating paipan result
below. -/
def witnessDongBianYaos : List YaoNajia :=
  [⟨1, 8, false, false, "己", "卯", "木", "妻财", "青龙", false, true, "旺"⟩,
   ⟨2, 7, true, false, "己", "丑", "土", "父母", "朱雀", false, false, "囚"⟩,
   ⟨3, 8, false, false, "己", "亥", "水", "子孙", "勾陈", false, false, "休"⟩,
   ⟨4, 8, false, false, "壬", "午", "火", "官鬼", "螣蛇", true, false, "相"⟩,
   ⟨5, 7, true, false, "壬", "申", "金", "兄弟", "白虎", false, false, "死"⟩,
   ⟨6, 7, true, false, "壬", "戌", "土", "父母", "玄武", false, false, "囚"⟩]

/-- A concrete 乾宫 paipan result (天水讼 with the fourth line mutating)
used to evaluate the Stage-4 theorem. -/
def witnessPaipanDong : PaipanResult :=
  { ben_gua_name := "天水讼", bian_gua_name := some "天火同人", gong := "乾宫",
    gong_wuxing := "金", shi_yao := 4, ying_yao := 1,
    ben_gua_yaos :=
      [⟨1, 8, false, false, "戊", "寅", "木", "妻财", "青龙", false, true, "旺"⟩,
       ⟨2, 7, true, false, "戊", "辰", "土", "父母", "朱雀", false, false, "囚"⟩,
       ⟨3, 8, false, false, "戊", "午", "火", "官鬼", "勾陈", false, false, "相"⟩,
       ⟨4, 9, true, true, "壬", "午", "火", "官鬼", "螣蛇", true, false, "相"⟩,
       ⟨5, 7, true, false, "壬", "申", "金", "兄弟", "白虎", false, false, "死"⟩,
       ⟨6, 7, true, false, "壬", "戌", "土", "父母", "玄武", false, false, "囚"⟩],
    bian_gua_yaos := some witnessDongBianYaos,
    month_jian := "寅", day_chen := "午" }

/-- The resulting-hexagram line list computed by `paipan` at the concrete
witness call below (cast 天水讼 → 天火同人 under `sampleNajiaConfig`). -/
def witnessC9List : List YaoNajia :=
  (List.range 6).map
    (mkBianYao sampleNajiaConfig [7, 8, 7, 9, 7, 7]
      (get_trigram_najia sampleNajiaConfig "离" false)
      (get_trigram_najia sampleNajiaConfig "乾" true)
      ((sampleNajiaConfig.cfgGongWuxing "乾宫").getD "金")
      (get_liushen sampleNajiaConfig "甲") "寅" 4 1)

/-- C10: on any two of the five elements the kinship-role computation
returns one of the five roles and never the fallback "未知", since the
two elements always stand in at least one of the五行 relations. -/
theorem C10_liuqin_total (a b : String) (ha : a ∈ fiveElements) (hb : b ∈ fiveElements) :
    calc_liuqin a b ∈ ["兄弟", "子孙", "父母", "妻财", "官鬼"] ∧
    calc_liuqin a b ≠ "未知" ∧
    (a = b ∨ wuxingSheng b = some a ∨ wuxingSheng a = some b ∨
      wuxingKe b = some a ∨ wuxingKe a = some b) := by
  fin_cases ha <;> fin_cases hb <;> decide

/-- Witness for C10 at the concrete pair (木, 火). -/
theorem C10_liuqin_total_witness :
    calc_liuqin "木" "火" ∈ ["兄弟", "子孙", "父母", "妻财", "官鬼"] ∧
    calc_liuqin "木" "火" ≠ "未知" ∧
    ("木" = "火" ∨ wuxingSheng "火" = some "木" ∨ wuxingSheng "木" = some "火" ∨
      wuxingKe "火" = some "木" ∨ wuxingKe "木" = some "火") :=
  C10_liuqin_total "木" "火" (by decide) (by decide)

/-- C6 counterexample: the month element 木 overcomes the line element 土
(`wuxingKe 木 = 土`), yet the strength table classifies a 土 line under a
木 month (branch 卯) as 死, not the 囚 the claim assigns to
"month overcomes line". -/
theorem C6_counterexample :
    wuxingKe "木" = some "土" ∧
    calc_wangshuai "土" "卯" = "死" ∧
    wangshuaiLookup "木" "土" = some "死" ∧
    ("死" : String) ≠ "囚" := by decide

/-- C6 amended: the strength table is total on all 25 element pairs with
values among the five labels; identical → 旺, month generates line → 相,
line generates month → 休, and — with the last two relations swapped
relative to the claim — line overcomes month → 囚, month overcomes
line → 死. -/
theorem C6_wangshuai_table (m l : String)
    (hm : m ∈ fiveElements) (hl : l ∈ fiveElements) :
    (wangshuaiTable m).isSome ∧
    (wangshuaiLookup m l).isSome ∧
    (wangshuaiLookup m l).getD "" ∈ ["旺", "相", "休", "囚", "死"] ∧
    (m = l → wangshuaiLookup m l = some "旺") ∧
    (wuxingSheng m = some l → wangshuaiLookup m l = some "相") ∧
    (wuxingSheng l = some m → wangshuaiLookup m l = some "休") ∧
    (wuxingKe l = some m → wangshuaiLookup m l = some "囚") ∧
    (wuxingKe m = some l → wangshuaiLookup m l = some "死") := by
  fin_cases hm <;> fin_cases hl <;> decide

/-- Witness for C6 (amended) at the concrete pair (木, 土). -/
theorem C6_wangshuai_table_witness :
    (wangshuaiTable "木").isSome ∧
    (wangshuaiLookup "木" "土").isSome ∧
    (wangshuaiLookup "木" "土").getD "" ∈ ["旺", "相", "休", "囚", "死"] ∧
    ("木" = "土" → wangshuaiLookup "木" "土" = some "旺") ∧
    (wuxingSheng "木" = some "土" → wangshuaiLookup "木" "土" = some "相") ∧
    (wuxingSheng "土" = some "木" → wangshuaiLookup "木" "土" = some "休") ∧
    (wuxingKe "土" = some "木" → wangshuaiLookup "木" "土" = some "囚") ∧
    (wuxingKe "木" = some "土" → wangshuaiLookup "木" "土" = some "死") :=
  C6_wangshuai_table "木" "土" (by decide) (by decide)

/-- C3 counterexample: the month branch slot given the stem 甲 — a value
outside the 12-branch domain — does not fail: `calc_wangshuai` silently
substitutes the default month element 土 and returns the ordinary label
囚, exactly the result for the genuine Earth-month branch 辰. -/
theorem C3_counterexample :
    monthWuxing "甲" = none ∧
    calc_wangshuai "木" "甲" = "囚" ∧
    calc_wangshuai "木" "甲" = calc_wangshuai "木" "辰" := by decide

/-- C3 amended: out-of-domain lookups never fail; they substitute fixed
defaults — unknown month branch → element 土, unknown line element →
label 休, unknown day stem → the 甲乙日 spirit sequence, unknown house →
element 金 — and an ordinary result is returned. -/
theorem C3_default_substitution :
    (∀ yx mz, monthWuxing mz = none →
      calc_wangshuai yx mz = (wangshuaiLookup "土" yx).getD "休") ∧
    (∀ yx mz, wangshuaiLookup ((monthWuxing mz).getD "土") yx = none →
      calc_wangshuai yx mz = "休") ∧
    (∀ cfg g, g ∉ tenStems → get_liushen cfg g = cfg.liushenJiaYi) ∧
    (∀ cfg yv ut lt gong sy yy bn bgn bu bl rg mz dz,
      cfg.cfgGongWuxing gong = none →
      (paipan cfg yv ut lt gong sy yy bn bgn bu bl rg mz dz).gong_wuxing = "金") := by
  refine ⟨fun yx mz h => ?_, fun yx mz h => ?_, fun cfg g hg => ?_,
    fun cfg yv ut lt gong sy yy bn bgn bu bl rg mz dz h => ?_⟩
  · simp only [calc_wangshuai, h, Option.getD_none]
  · simp only [calc_wangshuai, h, Option.getD_none]
  · simp only [tenStems, List.mem_cons, List.not_mem_nil, or_false, not_or] at hg
    obtain ⟨h1, h2, h3, h4, h5, h6, h7, h8, h9, h10⟩ := hg
    simp only [get_liushen, h1, h2, h3, h4, h5, h6, h7, h8, h9, h10, or_self,
      if_false, if_neg, ite_false]
  · simp only [paipan, h, Option.getD_none]

/-- Witness for C3 (amended) at concrete out-of-domain inputs. -/
theorem C3_default_substitution_witness :
    calc_wangshuai "木" "甲" = (wangshuaiLookup "土" "木").getD "休" ∧
    calc_wangshuai "错" "卯" = "休" ∧
    get_liushen sampleNajiaConfig "错" = sampleNajiaConfig.liushenJiaYi ∧
    (paipan sampleNajiaConfig [] "" "" "某宫" 0 0 "" none none none "" "" "").gong_wuxing
      = "金" :=
  ⟨C3_default_substitution.1 "木" "甲" (by decide),
   C3_default_substitution.2.1 "错" "卯" (by decide),
   C3_default_substitution.2.2.1 sampleNajiaConfig "错" (by decide),
   C3_default_substitution.2.2.2 sampleNajiaConfig [] "" "" "某宫" 0 0 "" none none none
     "" "" "" (by decide)⟩

/-- C8: the month stem is the five-tigers formula
`(base_gan[year_stem % 5] + solar_month - 1) % 10`, and for a fixed
year stem the stem index advances by exactly 1 (mod 10) from each solar
month to the next. -/
theorem C8_five_tigers :
    (∀ (year : Int) (month day : Nat),
      (calc_month_ganzhi year month day).1 =
        TIANGAN.getD (month_gan_index (TIANGAN.indexOf (calc_year_ganzhi year).1)
          (get_lunar_month month day)) "") ∧
    (∀ g < 10,
      (∀ m < 13, 1 ≤ m →
        month_gan_index g m = (base_gan_month.getD (g % 5) 0 + m - 1) % 10) ∧
      (∀ m < 12, 1 ≤ m →
        month_gan_index g (m + 1) = (month_gan_index g m + 1) % 10)) := by
  refine ⟨fun year month day => rfl, ?_⟩
  decide

/-- Witness for C8 at year stem 0 (甲) and month 1. -/
theorem C8_five_tigers_witness :
    month_gan_index 0 (1 + 1) = (month_gan_index 0 1 + 1) % 10 :=
  (C8_five_tigers.2 0 (by decide)).2 1 (by decide) (by decide)

/-- C7: for every civil date the day stem index is congruent to
`dayOffset + refStem` mod 10 and the branch index to
`dayOffset + refBranch` mod 12, both always non-negative; at the
reference date 2000-01-01 the pair is exactly (甲, 辰), and the day
before it (a negative offset) still resolves correctly. -/
theorem C7_day_ganzhi :
    (∀ y m d : Nat, ∃ i j : Nat,
      i < 10 ∧ j < 12 ∧
      (i : Int) % 10 = (dayOffset y m d + refStem) % 10 ∧
      (j : Int) % 12 = (dayOffset y m d + refBranch) % 12 ∧
      calc_day_ganzhi y m d = (TIANGAN.getD i "", DIZHI.getD j "")) ∧
    calc_day_ganzhi 2000 1 1 = ("甲", "辰") ∧
    calc_day_ganzhi 1999 12 31 = ("癸", "卯") := by
  refine ⟨fun y m d => ?_, by decide, by decide⟩
  refine ⟨((refStem + dayOffset y m d) % 10).toNat,
    ((refBranch + dayOffset y m d) % 12).toNat, ?_, ?_, ?_, ?_, rfl⟩
  · have h1 : 0 ≤ (refStem + dayOffset y m d) % 10 :=
      Int.emod_nonneg _ (by norm_num)
    have h2 : (refStem + dayOffset y m d) % 10 < 10 :=
      Int.emod_lt_of_pos _ (by norm_num)
    omega
  · have h1 : 0 ≤ (refBranch + dayOffset y m d) % 12 :=
      Int.emod_nonneg _ (by norm_num)
    have h2 : (refBranch + dayOffset y m d) % 12 < 12 :=
      Int.emod_lt_of_pos _ (by norm_num)
    omega
  · have h1 : 0 ≤ (refStem + dayOffset y m d) % 10 :=
      Int.emod_nonneg _ (by norm_num)
    rw [Int.toNat_of_nonneg h1, Int.emod_emod_of_dvd _ dvd_rfl, add_comm]
  · have h1 : 0 ≤ (refBranch + dayOffset y m d) % 12 :=
      Int.emod_nonneg _ (by norm_num)
    rw [Int.toNat_of_nonneg h1, Int.emod_emod_of_dvd _ dvd_rfl, add_comm]

/-- The draw-to-value map only produces the four line values. -/
theorem random_to_yao_cases (r : Nat) :
    random_to_yao r = 6 ∨ random_to_yao r = 7 ∨
    random_to_yao r = 8 ∨ random_to_yao r = 9 := by
  unfold random_to_yao
  split_ifs <;> simp

/-- Reading index `i < 6` out of a `range`-6 map with a default. -/
theorem getD_range6_map {α : Type} (f : Nat → α) (d : α) (i : Nat) (h : i < 6) :
    ((List.range 6).map f).getD i d = f i := by
  rw [List.getD_eq_getElem?_getD, List.getElem?_map, List.getElem?_range h]
  rfl

/-- The line drawn at index `i` of a cast, as a function of the draws. -/
def castLineAt (rands : List Nat) (i : Nat) : YaoResult :=
  cast_single_yao (i + 1) (rands.getD i 0)

/-- The original-pattern character of a line. -/
def benChar (y : YaoResult) : Char := if y.is_yang then '1' else '0'

/-- The resulting-pattern character of a line. -/
def bianChar (y : YaoResult) : Char :=
  if y.is_changing then (if y.is_yang then '0' else '1')
  else (if y.is_yang then '1' else '0')

/-- C4: each bit of the resulting pattern is the original bit XOR the
line's mutating flag, a line's mutating flag holds exactly for values 6
and 9, and when no line mutates the resulting pattern string equals the
original pattern string. -/
theorem C4_resulting_pattern (rands : List Nat) :
    (∀ i, i < 6 →
      bitAt (cast_hexagram rands).bian_gua_binary i =
        xor (bitAt (cast_hexagram rands).ben_gua_binary i)
          ((cast_hexagram rands).yao_list.getD i dummyYaoResult).is_changing ∧
      (((cast_hexagram rands).yao_list.getD i dummyYaoResult).is_changing = true ↔
        (((cast_hexagram rands).yao_list.getD i dummyYaoResult).value = 6 ∨
         ((cast_hexagram rands).yao_list.getD i dummyYaoResult).value = 9))) ∧
    ((cast_hexagram rands).changing_lines = [] →
      (cast_hexagram rands).bian_gua_binary = (cast_hexagram rands).ben_gua_binary) := by
  have hyl : (cast_hexagram rands).yao_list = (List.range 6).map (castLineAt rands) := rfl
  have hben : (cast_hexagram rands).ben_gua_binary
      = String.mk (((List.range 6).map (castLineAt rands)).map benChar) := rfl
  have hbian : (cast_hexagram rands).bian_gua_binary
      = String.mk (((List.range 6).map (castLineAt rands)).map bianChar) := rfl
  have hcl : (cast_hexagram rands).changing_lines
      = (((List.range 6).map (castLineAt rands)).filter
          (fun y => y.is_changing)).map (fun y => y.position) := rfl
  constructor
  · intro i hi
    unfold bitAt
    rw [hyl, hben, hbian]
    show ((((List.range 6).map (castLineAt rands)).map bianChar).getD i '0' == '1') = _ ∧ _
    rw [List.map_map, List.map_map, getD_range6_map _ _ i hi, getD_range6_map _ _ i hi,
      getD_range6_map _ _ i hi]
    rcases random_to_yao_cases (rands.getD i 0) with h | h | h | h <;>
      rw [List.getD_eq_getElem?_getD] at h <;>
      simp [Function.comp, castLineAt, cast_single_yao, benChar, bianChar,
        yaoMappingIsYang, yaoMappingIsChanging, h]
  · intro h
    rw [hcl] at h
    have hfilter := List.map_eq_nil_iff.mp h
    have hall := List.filter_eq_nil_iff.mp hfilter
    rw [hben, hbian]
    congr 1
    refine List.map_congr_left (fun y hy => ?_)
    have hy' := hall y hy
    simp only [Bool.not_eq_true] at hy'
    simp [benChar, bianChar, hy']

/-- Witness for C4 at draws `[0, 1, 4, 7, 2, 5]`, bit 0. -/
theorem C4_resulting_pattern_witness :
    bitAt (cast_hexagram [0, 1, 4, 7, 2, 5]).bian_gua_binary 0 =
      xor (bitAt (cast_hexagram [0, 1, 4, 7, 2, 5]).ben_gua_binary 0)
        ((cast_hexagram [0, 1, 4, 7, 2, 5]).yao_list.getD 0 dummyYaoResult).is_changing :=
  ((C4_resulting_pattern [0, 1, 4, 7, 2, 5]).1 0 (by decide)).1

/-- The generation and overcoming tables never relate the same ordered
pair of elements. -/
theorem sheng_ke_disjoint (m y : String) (h : wuxingSheng m = some y) :
    wuxingKe m ≠ some y := by
  simp only [wuxingSheng] at h
  simp only [wuxingKe]
  split_ifs at h ⊢ <;>
    first
    | exact (Option.noConfusion h)
    | (injection h with h2; subst h2; decide)

/-- `_calc_yao_score` always clamps into `[0, 150]`. -/
theorem calc_yao_score_bounds (a : YaoAnalysis) :
    0 ≤ calc_yao_score a ∧ calc_yao_score a ≤ 150 := by
  unfold calc_yao_score
  exact ⟨le_max_left _ _, max_le (by norm_num) (min_le_left _ _)⟩

/-- Every score assigned by the per-line analysis lies in `[0, 150]`. -/
theorem buildYaoAnalysis_score_bounds (cfgY : YongShenConfig) (mz dz : String)
    (bian : Option (List YaoNajia)) (yao : YaoNajia) :
    0 ≤ (buildYaoAnalysis cfgY mz dz bian yao).score ∧
    (buildYaoAnalysis cfgY mz dz bian yao).score ≤ 150 := by
  unfold buildYaoAnalysis
  exact calc_yao_score_bounds _

set_option maxHeartbeats 1000000 in
/-- C1: the final per-line score equals the strength base (旺=100, 相=80,
休=50, 囚=30, 死=10), plus 20 when the month element generates the line
element and 15 when the day element does, minus 25 when the month
element overcomes it and 15 when the day element does, plus — only for a
mutating line — 30 on returning generation or −40 on returning overcome,
clamped into [0, 150]. -/
theorem C1_per_line_score (cfgY : YongShenConfig) (month_zhi day_zhi : String)
    (l : List YaoNajia) (b yao : YaoNajia)
    (hb : l[yao.position - 1]? = some b)
    (hw : yao.wang_shuai ∈ ["旺", "相", "休", "囚", "死"]) :
    (buildYaoAnalysis cfgY month_zhi day_zhi (some l) yao).score =
      max 0 (min 150
        (specBaseScore yao.wang_shuai
          + (if wuxingSheng ((monthWuxing month_zhi).getD "土") = some yao.wuxing
             then 20 else 0)
          + (if wuxingSheng ((dizhiWuxing day_zhi).getD "土") = some yao.wuxing
             then 15 else 0)
          - (if wuxingKe ((monthWuxing month_zhi).getD "土") = some yao.wuxing
             then 25 else 0)
          - (if wuxingKe ((dizhiWuxing day_zhi).getD "土") = some yao.wuxing
             then 15 else 0)
          + (if yao.is_changing = true then
              (if wuxingSheng b.wuxing = some yao.wuxing then 30
               else if wuxingKe b.wuxing = some yao.wuxing then (-40) else 0)
             else 0))) ∧
    0 ≤ (buildYaoAnalysis cfgY month_zhi day_zhi (some l) yao).score ∧
    (buildYaoAnalysis cfgY month_zhi day_zhi (some l) yao).score ≤ 150 := by
  have hne : l ≠ [] := by rintro rfl; simp at hb
  have hgd : l.getD (yao.position - 1) dummyYaoNajia = b := by
    rw [List.getD_eq_getElem?_getD, hb]; rfl
  have hbase : (wangShuaiScore yao.wang_shuai).getD 50 = specBaseScore yao.wang_shuai := by
    simp only [List.mem_cons, List.not_mem_nil, or_false] at hw
    rcases hw with h5 | h5 | h5 | h5 | h5 <;> rw [h5] <;> decide
  refine ⟨?_, (buildYaoAnalysis_score_bounds _ _ _ _ _).1,
    (buildYaoAnalysis_score_bounds _ _ _ _ _).2⟩
  by_cases hms : wuxingSheng ((monthWuxing month_zhi).getD "土") = some yao.wuxing <;>
  by_cases hds : wuxingSheng ((dizhiWuxing day_zhi).getD "土") = some yao.wuxing <;>
  by_cases hmk : wuxingKe ((monthWuxing month_zhi).getD "土") = some yao.wuxing <;>
  by_cases hdk : wuxingKe ((dizhiWuxing day_zhi).getD "土") = some yao.wuxing <;>
  first
  | exact absurd hmk (sheng_ke_disjoint _ _ hms)
  | exact absurd hdk (sheng_ke_disjoint _ _ hds)
  | (by_cases hc : yao.is_changing = true <;>
     by_cases hhs : wuxingSheng b.wuxing = some yao.wuxing <;>
     by_cases hhk : wuxingKe b.wuxing = some yao.wuxing <;>
     · simp only [buildYaoAnalysis, calcRiYueShengke, calc_yao_score, hne, hgd, hms, hds,
         hmk, hdk, hc, hhs, hhk, hbase, ne_eq, not_false_eq_true, and_true, true_and,
         if_true, if_false, and_false, false_and, Bool.not_eq_true, Bool.false_eq_true]
       first
       | rfl
       | (congr 1; congr 1; ring))

/-- Witness for C1 at a concrete mutating line under a 寅 month and 子 day. -/
theorem C1_per_line_score_witness :
    (buildYaoAnalysis yongShenDefault "寅" "子" (some [witnessBianYao]) witnessYao).score =
      max 0 (min 150
        (specBaseScore witnessYao.wang_shuai
          + (if wuxingSheng ((monthWuxing "寅").getD "土") = some witnessYao.wuxing
             then 20 else 0)
          + (if wuxingSheng ((dizhiWuxing "子").getD "土") = some witnessYao.wuxing
             then 15 else 0)
          - (if wuxingKe ((monthWuxing "寅").getD "土") = some witnessYao.wuxing
             then 25 else 0)
          - (if wuxingKe ((dizhiWuxing "子").getD "土") = some witnessYao.wuxing
             then 15 else 0)
          + (if witnessYao.is_changing = true then
              (if wuxingSheng witnessBianYao.wuxing = some witnessYao.wuxing then 30
               else if wuxingKe witnessBianYao.wuxing = some witnessYao.wuxing then (-40)
               else 0)
             else 0))) ∧
    0 ≤ (buildYaoAnalysis yongShenDefault "寅" "子" (some [witnessBianYao]) witnessYao).score ∧
    (buildYaoAnalysis yongShenDefault "寅" "子" (some [witnessBianYao]) witnessYao).score ≤ 150 :=
  C1_per_line_score yongShenDefault "寅" "子" [witnessBianYao] witnessBianYao witnessYao
    (by decide) (by decide)


/-! ### Shared lemmas for the analysis-engine theorems -/

/-- `find?` returns the head of the filtered list. -/
theorem find?_eq_head?_filter {α : Type} (l : List α) (p : α → Bool) :
    l.find? p = (l.filter p).head? := by
  induction l with
  | nil => rfl
  | cons x xs ih =>
    by_cases h : p x
    · simp [List.find?_cons, List.filter_cons, h]
    · simp only [List.find?_cons, List.filter_cons, h, Bool.false_eq_true, if_false,
        cond_false]
      exact ih

/-- A non-empty line list contains a line of maximal score. -/
theorem exists_max_score (l : List YaoAnalysis) (h : l ≠ []) :
    ∃ a ∈ l, ∀ b ∈ l, b.score ≤ a.score := by
  induction l with
  | nil => exact absurd rfl h
  | cons x xs ih =>
    cases xs with
    | nil => exact ⟨x, by simp⟩
    | cons y ys =>
      obtain ⟨a, ha, hmax⟩ := ih (by simp)
      by_cases hc : a.score ≤ x.score
      · refine ⟨x, by simp, fun b hb => ?_⟩
        rcases List.mem_cons.mp hb with rfl | hb'
        · exact le_refl _
        · exact le_trans (hmax b hb') hc
      · refine ⟨a, List.mem_cons_of_mem _ ha, fun b hb => ?_⟩
        rcases List.mem_cons.mp hb with rfl | hb'
        · omega
        · exact hmax b hb'

/-- For a fixed house element, the kinship role determines the line
element: two lines with the same role share their element. -/
theorem liuqin_inj (g a b : String) (hg : g ∈ fiveElements) (ha : a ∈ fiveElements)
    (hb : b ∈ fiveElements) (h : calc_liuqin a g = calc_liuqin b g) : a = b := by
  fin_cases hg <;> fin_cases ha <;> fin_cases hb <;> revert h <;> decide

/-- No element generates or overcomes itself. -/
theorem self_no_rel (x : String) (hx : x ∈ fiveElements) :
    wuxingSheng x ≠ some x ∧ wuxingKe x ≠ some x := by
  fin_cases hx <;> exact ⟨by decide, by decide⟩

/-- The five element names are non-empty strings. -/
theorem five_ne_empty (x : String) (hx : x ∈ fiveElements) : x ≠ "" := by
  fin_cases hx <;> decide

/-- The target-role flag assigned by the per-line analysis. -/
theorem build_is_yong_shen (cfgY : YongShenConfig) (mz dz : String)
    (bian : Option (List YaoNajia)) (yao : YaoNajia) :
    (buildYaoAnalysis cfgY mz dz bian yao).is_yong_shen =
      (if cfgY.yongShen = "世爻" then yao.shi_yao
       else decide (yao.liuqin = cfgY.yongShen)) := by
  unfold buildYaoAnalysis calcRiYueShengke
  cases bian <;> simp only [apply_ite YaoAnalysis.is_yong_shen, ite_self]

/-- The mutating flag carries over from the najia line. -/
theorem build_is_dong (cfgY : YongShenConfig) (mz dz : String)
    (bian : Option (List YaoNajia)) (yao : YaoNajia) :
    (buildYaoAnalysis cfgY mz dz bian yao).is_dong = yao.is_changing := by
  unfold buildYaoAnalysis calcRiYueShengke
  cases bian <;> simp only [apply_ite YaoAnalysis.is_dong, ite_self]

/-- The position carries over from the najia line. -/
theorem build_position (cfgY : YongShenConfig) (mz dz : String)
    (bian : Option (List YaoNajia)) (yao : YaoNajia) :
    (buildYaoAnalysis cfgY mz dz bian yao).position = yao.position := by
  unfold buildYaoAnalysis calcRiYueShengke
  cases bian <;> simp only [apply_ite YaoAnalysis.position, ite_self]

/-- The kinship role carries over from the najia line. -/
theorem build_liuqin (cfgY : YongShenConfig) (mz dz : String)
    (bian : Option (List YaoNajia)) (yao : YaoNajia) :
    (buildYaoAnalysis cfgY mz dz bian yao).liuqin = yao.liuqin := by
  unfold buildYaoAnalysis calcRiYueShengke
  cases bian <;> simp only [apply_ite YaoAnalysis.liuqin, ite_self]

/-- The six-spirit carries over from the najia line. -/
theorem build_liushen (cfgY : YongShenConfig) (mz dz : String)
    (bian : Option (List YaoNajia)) (yao : YaoNajia) :
    (buildYaoAnalysis cfgY mz dz bian yao).liushen = yao.liushen := by
  unfold buildYaoAnalysis calcRiYueShengke
  cases bian <;> simp only [apply_ite YaoAnalysis.liushen, ite_self]

/-- The element carries over from the najia line. -/
theorem build_wuxing (cfgY : YongShenConfig) (mz dz : String)
    (bian : Option (List YaoNajia)) (yao : YaoNajia) :
    (buildYaoAnalysis cfgY mz dz bian yao).wuxing = yao.wuxing := by
  unfold buildYaoAnalysis calcRiYueShengke
  cases bian <;> simp only [apply_ite YaoAnalysis.wuxing, ite_self]

/-- Mutation fields of a mutating line when the resulting line set is
present: the resulting element, and the returning-generation/overcome
flags as their defining conditions. -/
theorem build_bian_fields (cfgY : YongShenConfig) (mz dz : String) (l : List YaoNajia)
    (yao : YaoNajia) (hc : yao.is_changing = true) (hne : l ≠ []) :
    (buildYaoAnalysis cfgY mz dz (some l) yao).bian_wuxing =
      (l.getD (yao.position - 1) dummyYaoNajia).wuxing ∧
    ((buildYaoAnalysis cfgY mz dz (some l) yao).hui_tou_sheng = true ↔
      wuxingSheng (l.getD (yao.position - 1) dummyYaoNajia).wuxing = some yao.wuxing) ∧
    ((buildYaoAnalysis cfgY mz dz (some l) yao).hui_tou_ke = true ↔
      (¬ wuxingSheng (l.getD (yao.position - 1) dummyYaoNajia).wuxing = some yao.wuxing ∧
       wuxingKe (l.getD (yao.position - 1) dummyYaoNajia).wuxing = some yao.wuxing)) := by
  unfold buildYaoAnalysis calcRiYueShengke
  refine ⟨?_, ?_, ?_⟩ <;>
    simp only [hc, hne, ne_eq, not_false_eq_true, and_self, if_true, true_and,
      apply_ite YaoAnalysis.bian_wuxing, apply_ite YaoAnalysis.hui_tou_sheng,
      apply_ite YaoAnalysis.hui_tou_ke, ite_self] <;>
    split_ifs <;> simp_all

/-- C2: when the question category has a kinship-role target (not the
subject line) and no line carries that role, the analysis still returns
a report: target score 0, target position 0, the empty degenerate status
sentence, and the verdict grade 凶 (misfortune). -/
theorem C2_no_target_degenerate (question qt mz dz rg : String) (pp : PaipanResult)
    (hqt : ((yongShenMap qt).getD yongShenDefault).yongShen ≠ "世爻")
    (hnone : ∀ y ∈ pp.ben_gua_yaos,
      y.liuqin ≠ ((yongShenMap qt).getD yongShenDefault).yongShen) :
    (analyze question qt pp mz dz rg).yong_shen_score = 0 ∧
    (analyze question qt pp mz dz rg).yong_shen_pos = 0 ∧
    (analyze question qt pp mz dz rg).yong_shen_status = "" ∧
    (analyze question qt pp mz dz rg).ji_xiong = "凶" := by
  have hfe : (pp.ben_gua_yaos.map
      (buildYaoAnalysis ((yongShenMap qt).getD yongShenDefault) mz dz
        pp.bian_gua_yaos)).filter (fun y => y.is_yong_shen) = [] := by
    refine List.filter_eq_nil_iff.mpr (fun y hy => ?_)
    obtain ⟨yao, hyao, rfl⟩ := List.mem_map.mp hy
    rw [build_is_yong_shen, if_neg hqt]
    simp [hnone yao hyao]
  have hys : analyzeYongShen (pp.ben_gua_yaos.map
      (buildYaoAnalysis ((yongShenMap qt).getD yongShenDefault) mz dz
        pp.bian_gua_yaos)) = (0, 0, "") := by
    unfold analyzeYongShen
    rw [hfe]
  have h1 : (analyze question qt pp mz dz rg).yong_shen_score
      = (analyzeYongShen (pp.ben_gua_yaos.map
          (buildYaoAnalysis ((yongShenMap qt).getD yongShenDefault) mz dz
            pp.bian_gua_yaos))).2.1 := rfl
  have h2 : (analyze question qt pp mz dz rg).yong_shen_pos
      = (analyzeYongShen (pp.ben_gua_yaos.map
          (buildYaoAnalysis ((yongShenMap qt).getD yongShenDefault) mz dz
            pp.bian_gua_yaos))).1 := rfl
  have h3 : (analyze question qt pp mz dz rg).yong_shen_status
      = (analyzeYongShen (pp.ben_gua_yaos.map
          (buildYaoAnalysis ((yongShenMap qt).getD yongShenDefault) mz dz
            pp.bian_gua_yaos))).2.2 := rfl
  have h4 : (analyze question qt pp mz dz rg).ji_xiong
      = (makeConclusion (analyzeYongShen (pp.ben_gua_yaos.map
          (buildYaoAnalysis ((yongShenMap qt).getD yongShenDefault) mz dz
            pp.bian_gua_yaos))).2.1 (pp.ben_gua_yaos.map
          (buildYaoAnalysis ((yongShenMap qt).getD yongShenDefault) mz dz
            pp.bian_gua_yaos))).1 := rfl
  rw [h1, h2, h3, h4, hys]
  refine ⟨rfl, rfl, rfl, ?_⟩
  unfold makeConclusion
  norm_num

/-- Witness for C2: a health question over a cast with no 子孙 line. -/
theorem C2_no_target_degenerate_witness :
    (analyze "问健康" "健康" witnessPaipanHealth "寅" "午" "甲").yong_shen_score = 0 ∧
    (analyze "问健康" "健康" witnessPaipanHealth "寅" "午" "甲").yong_shen_pos = 0 ∧
    (analyze "问健康" "健康" witnessPaipanHealth "寅" "午" "甲").yong_shen_status = "" ∧
    (analyze "问健康" "健康" witnessPaipanHealth "寅" "午" "甲").ji_xiong = "凶" :=
  C2_no_target_degenerate "问健康" "健康" "寅" "午" "甲" witnessPaipanHealth
    (by decide) (by decide)


/-- Membership in the mutating-position accumulator: position `k + j + 1`
for each index `j` whose value is 6 or 9. -/
theorem mem_changingPositionsAux (vs : List Nat) :
    ∀ (k p : Nat), p ∈ changingPositionsAux k vs ↔
      ∃ j, j < vs.length ∧ p = k + j + 1 ∧ (vs.getD j 0 = 6 ∨ vs.getD j 0 = 9) := by
  induction vs with
  | nil => intro k p; simp [changingPositionsAux]
  | cons v vs ih =>
    intro k p
    unfold changingPositionsAux
    by_cases h : v = 6 ∨ v = 9
    · simp only [h, if_true, List.mem_cons, ih]
      constructor
      · rintro (rfl | ⟨j, hj, rfl, hv⟩)
        · exact ⟨0, by simp, by omega, by simpa using h⟩
        · exact ⟨j + 1, by simpa using hj, by omega, by simpa using hv⟩
      · rintro ⟨j, hj, rfl, hv⟩
        cases j with
        | zero => left; omega
        | succ j' =>
          right
          exact ⟨j', by simpa using hj, by omega, by simpa using hv⟩
    · simp only [h, if_false, ih]
      constructor
      · rintro ⟨j, hj, rfl, hv⟩
        exact ⟨j + 1, by simpa using hj, by omega, by simpa using hv⟩
      · rintro ⟨j, hj, rfl, hv⟩
        cases j with
        | zero => exact absurd (by simpa using hv) h
        | succ j' =>
          exact ⟨j', by simpa using hj, by omega, by simpa using hv⟩

/-- Position `i + 1` is a mutating position exactly when the value drawn
at index `i` is 6 or 9. -/
theorem mem_changingPositions_iff (vals : List Nat) (i : Nat) (hi : i < vals.length) :
    ((i + 1) ∈ changingPositions vals) ↔ (vals.getD i 0 = 6 ∨ vals.getD i 0 = 9) := by
  unfold changingPositions
  rw [mem_changingPositionsAux]
  constructor
  · rintro ⟨j, hj, hji, hv⟩
    have hj' : j = i := by omega
    subst hj'; exact hv
  · intro hv; exact ⟨i, hi, by omega, hv⟩

/-- C9: every resulting-hexagram line produced by `paipan` is static
(mutating flag false, value 7 or 8 matching its polarity), its polarity
is the original line's polarity XOR the original mutating flag, and it
reuses the original line's six-spirit, the house element for its
kinship-role, and the subject/counterpart flags and position. -/
theorem C9_bian_lines_static (cfg : NajiaConfig) (yao_values : List Nat)
    (ut lt gong : String) (shi ying : Nat) (bn : String)
    (bgn bu bl : Option String) (rg mz dz : String)
    (hlen : yao_values.length = 6)
    (l : List YaoNajia)
    (hl : (paipan cfg yao_values ut lt gong shi ying bn bgn bu bl rg mz dz).bian_gua_yaos
        = some l) :
    l.length = 6 ∧
    ∀ i, i < 6 →
      (l.getD i dummyYaoNajia).is_changing = false ∧
      ((l.getD i dummyYaoNajia).yao_value = 7 ∨ (l.getD i dummyYaoNajia).yao_value = 8) ∧
      ((l.getD i dummyYaoNajia).yao_value = 7 ↔ (l.getD i dummyYaoNajia).is_yang = true) ∧
      (l.getD i dummyYaoNajia).is_yang =
        xor ((paipan cfg yao_values ut lt gong shi ying bn bgn bu bl rg mz dz).ben_gua_yaos.getD
              i dummyYaoNajia).is_yang
          ((paipan cfg yao_values ut lt gong shi ying bn bgn bu bl rg mz dz).ben_gua_yaos.getD
              i dummyYaoNajia).is_changing ∧
      (l.getD i dummyYaoNajia).liushen =
        ((paipan cfg yao_values ut lt gong shi ying bn bgn bu bl rg mz dz).ben_gua_yaos.getD
            i dummyYaoNajia).liushen ∧
      (l.getD i dummyYaoNajia).liuqin =
        calc_liuqin (l.getD i dummyYaoNajia).wuxing
          (paipan cfg yao_values ut lt gong shi ying bn bgn bu bl rg mz dz).gong_wuxing ∧
      (l.getD i dummyYaoNajia).shi_yao =
        ((paipan cfg yao_values ut lt gong shi ying bn bgn bu bl rg mz dz).ben_gua_yaos.getD
            i dummyYaoNajia).shi_yao ∧
      (l.getD i dummyYaoNajia).ying_yao =
        ((paipan cfg yao_values ut lt gong shi ying bn bgn bu bl rg mz dz).ben_gua_yaos.getD
            i dummyYaoNajia).ying_yao ∧
      (l.getD i dummyYaoNajia).position =
        ((paipan cfg yao_values ut lt gong shi ying bn bgn bu bl rg mz dz).ben_gua_yaos.getD
            i dummyYaoNajia).position := by
  have hbg : (paipan cfg yao_values ut lt gong shi ying bn bgn bu bl rg mz dz).bian_gua_yaos
      = if bianParamsPresent bgn bu bl then
          some ((List.range 6).map
            (mkBianYao cfg yao_values (get_trigram_najia cfg (bl.getD "") false)
              (get_trigram_najia cfg (bu.getD "") true)
              ((cfg.cfgGongWuxing gong).getD "金") (get_liushen cfg rg) mz shi ying))
        else none := rfl
  have hben : (paipan cfg yao_values ut lt gong shi ying bn bgn bu bl rg mz dz).ben_gua_yaos
      = (List.range 6).map
          (mkBenYao cfg yao_values (get_trigram_najia cfg lt false)
            (get_trigram_najia cfg ut true)
            ((cfg.cfgGongWuxing gong).getD "金") (get_liushen cfg rg) mz shi ying) := rfl
  rw [hbg] at hl
  by_cases hbp : bianParamsPresent bgn bu bl
  swap
  · rw [if_neg hbp] at hl; exact Option.noConfusion hl
  rw [if_pos hbp] at hl
  injection hl with hl
  subst hl
  constructor
  · simp
  intro i hi
  have hgw : (paipan cfg yao_values ut lt gong shi ying bn bgn bu bl rg mz dz).gong_wuxing
      = (cfg.cfgGongWuxing gong).getD "金" := rfl
  rw [hben, hgw, getD_range6_map _ _ i hi, getD_range6_map _ _ i hi]
  simp only [mkBianYao, mkBenYao]
  by_cases hmem : (i + 1) ∈ changingPositions yao_values
  · have hv := (mem_changingPositions_iff yao_values i (by omega)).mp hmem
    rw [List.getD_eq_getElem?_getD] at hv
    rcases hv with hv | hv <;> simp [hmem, hv]
  · have hv : ¬ (yao_values.getD i 0 = 6 ∨ yao_values.getD i 0 = 9) :=
      fun h => hmem ((mem_changingPositions_iff yao_values i (by omega)).mpr h)
    push_neg at hv
    obtain ⟨hv6, hv9⟩ := hv
    rw [List.getD_eq_getElem?_getD] at hv6 hv9
    by_cases hy : yao_values[i]?.getD 0 = 7 <;>
      simp [hmem, hy, hv6, hv9]

/-- Witness for C9 at a concrete cast (天水讼, fourth line mutating,
trigram data from `sampleNajiaConfig`). -/
theorem C9_bian_lines_static_witness :
    witnessC9List.length = 6 ∧
    ∀ i, i < 6 →
      (witnessC9List.getD i dummyYaoNajia).is_changing = false ∧
      ((witnessC9List.getD i dummyYaoNajia).yao_value = 7 ∨
       (witnessC9List.getD i dummyYaoNajia).yao_value = 8) ∧
      ((witnessC9List.getD i dummyYaoNajia).yao_value = 7 ↔
       (witnessC9List.getD i dummyYaoNajia).is_yang = true) ∧
      (witnessC9List.getD i dummyYaoNajia).is_yang =
        xor ((paipan sampleNajiaConfig [7, 8, 7, 9, 7, 7] "乾" "坎" "乾宫" 4 1 "天水讼"
        (some "天火同人") (some "乾") (some "离") "甲" "寅" "午").ben_gua_yaos.getD i dummyYaoNajia).is_yang
          ((paipan sampleNajiaConfig [7, 8, 7, 9, 7, 7] "乾" "坎" "乾宫" 4 1 "天水讼"
        (some "天火同人") (some "乾") (some "离") "甲" "寅" "午").ben_gua_yaos.getD i dummyYaoNajia).is_changing ∧
      (witnessC9List.getD i dummyYaoNajia).liushen =
        ((paipan sampleNajiaConfig [7, 8, 7, 9, 7, 7] "乾" "坎" "乾宫" 4 1 "天水讼"
        (some "天火同人") (some "乾") (some "离") "甲" "寅" "午").ben_gua_yaos.getD i dummyYaoNajia).liushen ∧
      (witnessC9List.getD i dummyYaoNajia).liuqin =
        calc_liuqin (witnessC9List.getD i dummyYaoNajia).wuxing
          (paipan sampleNajiaConfig [7, 8, 7, 9, 7, 7] "乾" "坎" "乾宫" 4 1 "天水讼"
        (some "天火同人") (some "乾") (some "离") "甲" "寅" "午").gong_wuxing ∧
      (witnessC9List.getD i dummyYaoNajia).shi_yao =
        ((paipan sampleNajiaConfig [7, 8, 7, 9, 7, 7] "乾" "坎" "乾宫" 4 1 "天水讼"
        (some "天火同人") (some "乾") (some "离") "甲" "寅" "午").ben_gua_yaos.getD i dummyYaoNajia).shi_yao ∧
      (witnessC9List.getD i dummyYaoNajia).ying_yao =
        ((paipan sampleNajiaConfig [7, 8, 7, 9, 7, 7] "乾" "坎" "乾宫" 4 1 "天水讼"
        (some "天火同人") (some "乾") (some "离") "甲" "寅" "午").ben_gua_yaos.getD i dummyYaoNajia).ying_yao ∧
      (witnessC9List.getD i dummyYaoNajia).position =
        ((paipan sampleNajiaConfig [7, 8, 7, 9, 7, 7] "乾" "坎" "乾宫" 4 1 "天水讼"
        (some "天火同人") (some "乾") (some "离") "甲" "寅" "午").ben_gua_yaos.getD i dummyYaoNajia).position :=
  C9_bian_lines_static sampleNajiaConfig [7, 8, 7, 9, 7, 7] "乾" "坎" "乾宫" 4 1 "天水讼"
    (some "天火同人") (some "乾") (some "离") "甲" "寅" "午" (by decide)
    witnessC9List rfl



/-- `find?` only depends on the predicate's values on the list. -/
theorem find?_congr {α : Type} (l : List α) (p q : α → Bool)
    (h : ∀ a ∈ l, p a = q a) : l.find? p = l.find? q := by
  induction l with
  | nil => rfl
  | cons x xs ih =>
    rw [List.find?_cons, List.find?_cons, h x (by simp)]
    cases hq : q x
    · exact ih (fun a ha => h a (List.mem_cons_of_mem _ ha))
    · rfl

set_option maxHeartbeats 1000000 in
/-- Python `max(..., key=score)` — the fold keeping the earlier element
on ties — returns exactly the first element of maximal score. -/
theorem maxByScoreFirst_eq_find (x : YaoAnalysis) (xs : List YaoAnalysis) :
    some (maxByScoreFirst x xs)
      = (x :: xs).find? (fun y => (x :: xs).all (fun z => z.score ≤ y.score)) := by
  induction xs generalizing x with
  | nil => simp [maxByScoreFirst]
  | cons z zs ih =>
    have hstep : maxByScoreFirst x (z :: zs)
        = maxByScoreFirst (if z.score > x.score then z else x) zs := rfl
    rw [hstep]
    by_cases hzx : z.score > x.score
    · rw [if_pos hzx, ih z]
      have hpx : ((x :: z :: zs).all (fun u => u.score ≤ x.score)) = false :=
        List.all_eq_false.mpr ⟨z, by simp, by simp; omega⟩
      conv_rhs => rw [List.find?_cons]
      simp only [hpx, cond_false]
      refine find?_congr _ _ _ (fun y hy => ?_)
      cases hall : ((z :: zs).all (fun u => u.score ≤ y.score))
      · have h2 : ((x :: z :: zs).all (fun u => u.score ≤ y.score)) = false := by
          rw [List.all_cons, hall]
          simp
        rw [h2]
      · have hz : z.score ≤ y.score := by
          have := List.all_eq_true.mp hall z (by simp)
          simpa using this
        have hx : x.score ≤ y.score := by omega
        have h2 : ((x :: z :: zs).all (fun u => u.score ≤ y.score)) = true := by
          rw [List.all_cons, hall]
          simp [hx]
        rw [h2]
    · rw [if_neg hzx, ih x]
      push_neg at hzx
      conv_lhs => rw [List.find?_cons]
      conv_rhs => rw [List.find?_cons]
      cases hx : ((x :: zs).all (fun u => u.score ≤ x.score)) with
      | true =>
        have hbig : ((x :: z :: zs).all (fun u => u.score ≤ x.score)) = true := by
          simp only [List.all_cons, Bool.and_eq_true, decide_eq_true_eq] at hx ⊢
          exact ⟨hx.1, hzx, hx.2⟩
        simp only [hx, hbig, cond_true]
      | false =>
        have hbigx : ((x :: z :: zs).all (fun u => u.score ≤ x.score)) = false := by
          simp only [List.all_cons, Bool.and_eq_false_iff, decide_eq_false_iff_not]
            at hx ⊢
          rcases hx with h | h
          · exact Or.inl h
          · right; right; exact h
        have hobst : ∃ u ∈ x :: zs, ¬ u.score ≤ x.score := by
          obtain ⟨u, hu, hup⟩ := List.all_eq_false.mp hx
          exact ⟨u, hu, by simpa using hup⟩
        have hbigz : ((x :: z :: zs).all (fun u => u.score ≤ z.score)) = false := by
          refine List.all_eq_false.mpr ?_
          obtain ⟨u, hu, hup⟩ := hobst
          refine ⟨u, ?_, by simp; omega⟩
          rcases List.mem_cons.mp hu with rfl | hu'
          · simp
          · simp [hu']
        simp only [hx, hbigx, cond_false]
        rw [List.find?_cons]
        simp only [hbigz, cond_false]
        refine find?_congr _ _ _ (fun y hy => ?_)
        cases hall : (zs.all (fun u => u.score ≤ y.score))
        · have h1 : ((x :: zs).all (fun u => u.score ≤ y.score)) = false := by
            rw [List.all_cons, hall]
            simp
          have h2 : ((x :: z :: zs).all (fun u => u.score ≤ y.score)) = false := by
            rw [List.all_cons, List.all_cons, hall]
            simp
          rw [h1, h2]
        · by_cases hxy : x.score ≤ y.score
          · have hzy : z.score ≤ y.score := by omega
            have h1 : ((x :: zs).all (fun u => u.score ≤ y.score)) = true := by
              rw [List.all_cons, hall]
              simp [hxy]
            have h2 : ((x :: z :: zs).all (fun u => u.score ≤ y.score)) = true := by
              rw [List.all_cons, List.all_cons, hall]
              simp [hxy, hzy]
            rw [h1, h2]
          · have h1 : ((x :: zs).all (fun u => u.score ≤ y.score)) = false := by
              rw [List.all_cons]
              simp [hxy]
            have h2 : ((x :: z :: zs).all (fun u => u.score ≤ y.score)) = false := by
              rw [List.all_cons]
              simp [hxy]
            rw [h1, h2]

/-- The specification's Stage-3 selection (highest score, first position
on ties) coincides with the code's `max`-based selection over the
flagged lines. -/
theorem specSelectTarget_eq_stage3 (yaos : List YaoAnalysis) :
    specSelectTarget yaos =
      (match yaos.filter (fun y => y.is_yong_shen) with
       | [] => none
       | x :: xs => some (maxByScoreFirst x xs)) := by
  unfold specSelectTarget
  cases hfl : yaos.filter (fun y => y.is_yong_shen) with
  | nil => rfl
  | cons x xs => exact (maxByScoreFirst_eq_find x xs).symm

set_option maxHeartbeats 2000000 in
/-- C5: the Stage-4 judgment list emitted by the analysis equals, line
for line, the specification's description — for each mutating line in
position order a judgment naming its position, kinship-role and spirit,
stating generation/overcoming towards the Stage-3 target (the
highest-scoring target-role line, first position on ties) whenever the
line is not itself that target, and appending its resulting element
with the returning-generation/overcome annotation; exactly the one
fixed all-lines-static judgment when nothing mutates; and the Stage-3
target used above is the one the report itself selects (its position
and score are the reported target position and score). -/
theorem C5_stage4_judgments (question qt mz dz rg : String) (pp : PaipanResult)
    (hlen : pp.ben_gua_yaos.length = 6)
    (hpos : ∀ i, i < 6 → (pp.ben_gua_yaos.getD i dummyYaoNajia).position = i + 1)
    (hwx : ∀ y ∈ pp.ben_gua_yaos, y.wuxing ∈ fiveElements)
    (hgw : pp.gong_wuxing ∈ fiveElements)
    (hlq : ∀ y ∈ pp.ben_gua_yaos, y.liuqin = calc_liuqin y.wuxing pp.gong_wuxing)
    (hshi : ∀ y ∈ pp.ben_gua_yaos, y.shi_yao = true → y.position = pp.shi_yao)
    (hbian : (∃ y ∈ pp.ben_gua_yaos, y.is_changing = true) →
      ∃ bl, pp.bian_gua_yaos = some bl ∧ bl.length = 6 ∧
        ∀ b ∈ bl, b.wuxing ∈ fiveElements) :
    (analyze question qt pp mz dz rg).dong_yao_analysis
      = specStage4 (analyze question qt pp mz dz rg).yaos ∧
    (match specSelectTarget (analyze question qt pp mz dz rg).yaos with
     | some t => (analyze question qt pp mz dz rg).yong_shen_pos = t.position ∧
                 (analyze question qt pp mz dz rg).yong_shen_score = t.score
     | none => (analyze question qt pp mz dz rg).yong_shen_pos = 0 ∧
               (analyze question qt pp mz dz rg).yong_shen_score = 0) := by
  refine ⟨?_, ?_⟩
  swap
  · set cfgY := (yongShenMap qt).getD yongShenDefault with hcfgY
    set Y := pp.ben_gua_yaos.map (buildYaoAnalysis cfgY mz dz pp.bian_gua_yaos) with hY
    have hyaos : (analyze question qt pp mz dz rg).yaos = Y := rfl
    have hyp : (analyze question qt pp mz dz rg).yong_shen_pos
        = (analyzeYongShen Y).1 := rfl
    have hysc : (analyze question qt pp mz dz rg).yong_shen_score
        = (analyzeYongShen Y).2.1 := rfl
    rw [hyaos, hyp, hysc, specSelectTarget_eq_stage3 Y]
    cases hfl : Y.filter (fun y => y.is_yong_shen) with
    | nil =>
      have hys : analyzeYongShen Y = (0, 0, "") := by
        unfold analyzeYongShen
        rw [hfl]
      rw [hys]
      exact ⟨rfl, rfl⟩
    | cons x xs =>
      have hys : (analyzeYongShen Y).1 = (maxByScoreFirst x xs).position ∧
          (analyzeYongShen Y).2.1 = (maxByScoreFirst x xs).score := by
        unfold analyzeYongShen
        rw [hfl]
        exact ⟨rfl, rfl⟩
      rw [hys.1, hys.2]
      exact ⟨rfl, rfl⟩
  have hyaos : (analyze question qt pp mz dz rg).yaos
      = pp.ben_gua_yaos.map
          (buildYaoAnalysis ((yongShenMap qt).getD yongShenDefault) mz dz
            pp.bian_gua_yaos) := rfl
  have hdya : (analyze question qt pp mz dz rg).dong_yao_analysis
      = analyzeDongYao (pp.ben_gua_yaos.map
          (buildYaoAnalysis ((yongShenMap qt).getD yongShenDefault) mz dz
            pp.bian_gua_yaos)) := rfl
  rw [hyaos, hdya]
  set cfgY := (yongShenMap qt).getD yongShenDefault with hcfgY
  set Y := pp.ben_gua_yaos.map (buildYaoAnalysis cfgY mz dz pp.bian_gua_yaos) with hY
  have hgetD : ∀ i, i < 6 → pp.ben_gua_yaos.getD i dummyYaoNajia ∈ pp.ben_gua_yaos := by
    intro i hi
    rw [List.getD_eq_getElem?_getD, List.getElem?_eq_getElem (by omega)]
    exact List.getElem_mem _
  have hmem : ∀ y ∈ Y, ∃ i, i < 6 ∧
      y = buildYaoAnalysis cfgY mz dz pp.bian_gua_yaos
            (pp.ben_gua_yaos.getD i dummyYaoNajia) := by
    intro y hy
    rw [hY] at hy
    obtain ⟨yao, hyao, rfl⟩ := List.mem_map.mp hy
    obtain ⟨i, hi, hig⟩ := List.mem_iff_getElem.mp hyao
    refine ⟨i, by omega, ?_⟩
    rw [List.getD_eq_getElem?_getD, List.getElem?_eq_getElem hi, Option.getD_some, hig]
  have hinj : ∀ y ∈ Y, ∀ z ∈ Y, y.position = z.position → y = z := by
    intro y hy z hz hp
    obtain ⟨i, hi, rfl⟩ := hmem y hy
    obtain ⟨j, hj, rfl⟩ := hmem z hz
    rw [build_position, build_position, hpos i hi, hpos j hj] at hp
    have : i = j := by omega
    subst this; rfl
  have hYwx : ∀ y ∈ Y, y.wuxing ∈ fiveElements := by
    intro y hy
    obtain ⟨i, hi, rfl⟩ := hmem y hy
    rw [build_wuxing]
    exact hwx _ (hgetD i hi)
  have hflagwx : ∀ y ∈ Y, ∀ z ∈ Y, y.is_yong_shen = true → z.is_yong_shen = true →
      y.wuxing = z.wuxing := by
    intro y hy z hz hfy hfz
    obtain ⟨i, hi, rfl⟩ := hmem y hy
    obtain ⟨j, hj, rfl⟩ := hmem z hz
    rw [build_is_yong_shen] at hfy hfz
    rw [build_wuxing, build_wuxing]
    by_cases hsh : cfgY.yongShen = "世爻"
    · rw [if_pos hsh] at hfy hfz
      have h1 := hshi _ (hgetD i hi) hfy
      have h2 := hshi _ (hgetD j hj) hfz
      rw [hpos i hi] at h1
      rw [hpos j hj] at h2
      have : i = j := by omega
      subst this; rfl
    · rw [if_neg hsh] at hfy hfz
      rw [decide_eq_true_eq] at hfy hfz
      refine liuqin_inj pp.gong_wuxing _ _ hgw (hwx _ (hgetD i hi)) (hwx _ (hgetD j hj)) ?_
      rw [← hlq _ (hgetD i hi), ← hlq _ (hgetD j hj), hfy, hfz]
  unfold analyzeDongYao specStage4
  by_cases hd : Y.filter (fun y => y.is_dong) = []
  · rw [if_pos hd, if_pos hd]
  rw [if_neg hd, if_neg hd]
  refine List.map_congr_left (fun d hd' => ?_)
  have hdY : d ∈ Y := (List.mem_filter.mp hd').1
  have hddong : d.is_dong = true := (List.mem_filter.mp hd').2
  obtain ⟨i, hi, hdd⟩ := hmem d hdY
  have hchg : (pp.ben_gua_yaos.getD i dummyYaoNajia).is_changing = true := by
    rw [hdd, build_is_dong] at hddong
    exact hddong
  obtain ⟨bl, hbl, hbll, hblwx⟩ := hbian ⟨_, hgetD i hi, hchg⟩
  have hblne : bl ≠ [] := by
    intro h; rw [h] at hbll; simp at hbll
  have hposd : (pp.ben_gua_yaos.getD i dummyYaoNajia).position = i + 1 := hpos i hi
  have hblmem : bl.getD ((pp.ben_gua_yaos.getD i dummyYaoNajia).position - 1)
      dummyYaoNajia ∈ bl := by
    rw [hposd]
    simp only [Nat.add_sub_cancel]
    rw [List.getD_eq_getElem?_getD, List.getElem?_eq_getElem (by omega)]
    exact List.getElem_mem _
  have hbwfive : (bl.getD ((pp.ben_gua_yaos.getD i dummyYaoNajia).position - 1)
      dummyYaoNajia).wuxing ∈ fiveElements := hblwx _ hblmem
  have hbf := build_bian_fields cfgY mz dz bl (pp.ben_gua_yaos.getD i dummyYaoNajia)
    hchg hblne
  rw [hbl] at hdd
  have hbwne : d.bian_wuxing ≠ "" := by
    rw [hdd, hbf.1]
    exact five_ne_empty _ hbwfive
  have hdwx : d.wuxing = (pp.ben_gua_yaos.getD i dummyYaoNajia).wuxing := by
    rw [hdd, build_wuxing]
  unfold dongYaoJudgment
  have hB : (match Y.find? (fun y => y.is_yong_shen) with
      | some ys =>
        if d.position ≠ ys.position then
          if wuxingSheng d.wuxing = some ys.wuxing then "，生扶用神，为吉"
          else if wuxingKe d.wuxing = some ys.wuxing then "，克制用神，为忌"
          else ""
        else ""
      | none => "") = (match specSelectTarget Y with
      | some t =>
        if d.position ≠ t.position then
          if wuxingSheng d.wuxing = some t.wuxing then "，生扶用神，为吉"
          else if wuxingKe d.wuxing = some t.wuxing then "，克制用神，为忌"
          else ""
        else ""
      | none => "") := by
    cases hfl : Y.filter (fun y => y.is_yong_shen) with
    | nil =>
      have hf : Y.find? (fun y => y.is_yong_shen) = none := by
        rw [find?_eq_head?_filter, hfl]; rfl
      have hsp : specSelectTarget Y = none := by
        unfold specSelectTarget
        rw [hfl]; rfl
      rw [hf, hsp]
    | cons x xs =>
      have hf : Y.find? (fun y => y.is_yong_shen) = some x := by
        rw [find?_eq_head?_filter, hfl]; rfl
      have hxf : x ∈ Y.filter (fun y => y.is_yong_shen) := by rw [hfl]; simp
      have hxY : x ∈ Y := (List.mem_filter.mp hxf).1
      have hxflag : x.is_yong_shen = true := (List.mem_filter.mp hxf).2
      have hsome : (specSelectTarget Y).isSome := by
        unfold specSelectTarget
        rw [hfl]
        refine List.find?_isSome.mpr ?_
        obtain ⟨a, ha, hmax⟩ := exists_max_score (x :: xs) (by simp)
        refine ⟨a, ha, ?_⟩
        rw [List.all_eq_true]
        intro z hz
        exact decide_eq_true (hmax z hz)
      obtain ⟨t, ht⟩ := Option.isSome_iff_exists.mp hsome
      have htf : t ∈ Y.filter (fun y => y.is_yong_shen) := by
        rw [hfl]
        apply List.mem_of_find?_eq_some
        unfold specSelectTarget at ht
        rw [hfl] at ht
        exact ht
      have htY : t ∈ Y := (List.mem_filter.mp htf).1
      have htflag : t.is_yong_shen = true := (List.mem_filter.mp htf).2
      have hxt : x.wuxing = t.wuxing := hflagwx x hxY t htY hxflag htflag
      rw [hf, ht]
      by_cases hdx : d.position = x.position <;> by_cases hdt : d.position = t.position
      · have hxtpos : x.position = t.position := by omega
        simp [hdx, hdt, hxtpos]
      · have hdxeq : d = x := hinj d hdY x hxY hdx
        have hwt : t.wuxing = d.wuxing := by rw [hdxeq, hxt]
        have hd5 : d.wuxing ∈ fiveElements := hYwx d hdY
        have hdt' : ¬ x.position = t.position := by rw [← hdx]; exact hdt
        simp [hdx, hdt', hwt, (self_no_rel _ hd5).1, (self_no_rel _ hd5).2]
      · have hdteq : d = t := hinj d hdY t htY hdt
        have hwt : x.wuxing = d.wuxing := by rw [hdteq, hxt]
        have hd5 : d.wuxing ∈ fiveElements := hYwx d hdY
        have hdx' : ¬ t.position = x.position := by rw [← hdt]; exact hdx
        simp [hdt, hdx', hwt, (self_no_rel _ hd5).1, (self_no_rel _ hd5).2]
      · simp [hdx, hdt, hxt]
  have hC : (if d.bian_wuxing ≠ "" then
        "，化" ++ d.bian_wuxing ++
          (if d.hui_tou_sheng then "（回头生，力量持续）"
           else if d.hui_tou_ke then "（回头克，动而无功）"
           else "")
      else "") =
      "，化" ++ d.bian_wuxing ++
        (if wuxingSheng d.bian_wuxing = some d.wuxing then "（回头生，力量持续）"
         else if wuxingKe d.bian_wuxing = some d.wuxing then "（回头克，动而无功）"
         else "") := by
    rw [if_pos hbwne]
    congr 1
    have hbw : d.bian_wuxing = (bl.getD
        ((pp.ben_gua_yaos.getD i dummyYaoNajia).position - 1) dummyYaoNajia).wuxing := by
      rw [hdd, hbf.1]
    by_cases hs : wuxingSheng d.bian_wuxing = some d.wuxing
    · have hs' := hs
      rw [hbw, hdwx] at hs'
      have hflag : d.hui_tou_sheng = true := by
        rw [hdd]
        exact hbf.2.1.mpr hs'
      rw [if_pos hs, if_pos hflag]
    · have hs' := hs
      rw [hbw, hdwx] at hs'
      have hnsh : d.hui_tou_sheng ≠ true := by
        rw [hdd]
        intro hcon
        exact hs' (hbf.2.1.mp hcon)
      by_cases hk : wuxingKe d.bian_wuxing = some d.wuxing
      · have hk' := hk
        rw [hbw, hdwx] at hk'
        have hflag : d.hui_tou_ke = true := by
          rw [hdd]
          exact hbf.2.2.mpr ⟨hs', hk'⟩
        rw [if_neg hs, if_pos hk]
        rw [if_neg (by simpa using hnsh), if_pos hflag]
      · have hk' := hk
        rw [hbw, hdwx] at hk'
        have hnk : d.hui_tou_ke ≠ true := by
          rw [hdd]
          intro hcon
          exact hk' (hbf.2.2.mp hcon).2
        rw [if_neg hs, if_neg hk, if_neg (by simpa using hnsh),
          if_neg (by simpa using hnk)]
  rw [hB, hC]

/-- Witness for C5 at a concrete cast with a mutating fourth line. -/
theorem C5_stage4_judgments_witness :
    ((analyze "问事业" "事业" witnessPaipanDong "寅" "午" "壬").dong_yao_analysis
      = specStage4 (analyze "问事业" "事业" witnessPaipanDong "寅" "午" "壬").yaos ∧
    (match specSelectTarget (analyze "问事业" "事业" witnessPaipanDong "寅" "午" "壬").yaos with
     | some t =>
        (analyze "问事业" "事业" witnessPaipanDong "寅" "午" "壬").yong_shen_pos = t.position ∧
        (analyze "问事业" "事业" witnessPaipanDong "寅" "午" "壬").yong_shen_score = t.score
     | none =>
        (analyze "问事业" "事业" witnessPaipanDong "寅" "午" "壬").yong_shen_pos = 0 ∧
        (analyze "问事业" "事业" witnessPaipanDong "寅" "午" "壬").yong_shen_score = 0)) :=
  C5_stage4_judgments "问事业" "事业" "寅" "午" "壬" witnessPaipanDong
    (by decide) (by decide) (by decide) (by decide) (by decide) (by decide)
    (fun _ => ⟨witnessDongBianYaos, rfl, by decide, by decide⟩)

end Suanming
